import Mathlib

/-
Verification of the page-based B+ tree store
(src/page_based_bplustree/{node.rs, btree_store.rs, mod.rs}).

The file models the store at the level the Rust code works at:
the backing file is a list of bytes, pages are encoded and decoded
with the big-endian fixed-width codec of btree_store.rs, and the
tree algorithms of node.rs run in a state monad over the file plus
the in-memory StoreMetaData record.  Machine integers (u32, u16,
usize) are Nat with explicit wrapping or explicit underflow checks
where the Rust code could overflow; recursive descent through page
reads takes a fuel parameter (the Rust recursion is bounded by the
tree height, which a caller-supplied fuel bound dominates).
Rust panics (unwrap, expect, index out of bounds, debug overflow)
and Err returns are both modelled as Except.error with the message
of the corresponding source line.
-/

deriving instance DecidableEq for Except

namespace PageBplusTree

/-- Sentinel 0xFFFF_FFFF: the wire value meaning none or absent
(mod.rs, btree_store.rs). -/
def U32MAX : Nat := 4294967295

/-- mod.rs read_u32_with_null: decode the sentinel convention. -/
def read_u32_with_null (raw_value : Nat) : Option Nat :=
  if raw_value = U32MAX then none else some raw_value

/-- Big-endian bytes of a u32 (u32::to_be_bytes); the explicit mod
2^32 mirrors the u32 value range. -/
def u32be (n : Nat) : List Nat :=
  [n % 4294967296 / 16777216, n % 16777216 / 65536, n % 65536 / 256, n % 256]

/-- Big-endian bytes of a u16 (u16::to_be_bytes). -/
def u16be (n : Nat) : List Nat :=
  [n % 65536 / 256, n % 256]

/-- mod.rs get_u32_be_bytes_from_option: None encodes as the sentinel. -/
def get_u32_be_bytes_from_option (value : Option Nat) : List Nat :=
  u32be (value.getD U32MAX)

/-- Read a big-endian u32 from four bytes of a byte list
(u32::from_be_bytes over a slice; none when the slice would be out of
bounds, which is an index panic in Rust). -/
def u32de (bytes : List Nat) (off : Nat) : Option Nat := do
  let b0 ← bytes.get? off
  let b1 ← bytes.get? (off + 1)
  let b2 ← bytes.get? (off + 2)
  let b3 ← bytes.get? (off + 3)
  some (b0 * 16777216 + b1 * 65536 + b2 * 256 + b3)

/-- Read a big-endian u16 from two bytes. -/
def u16de (bytes : List Nat) (off : Nat) : Option Nat := do
  let b0 ← bytes.get? off
  let b1 ← bytes.get? (off + 1)
  some (b0 * 256 + b1)

/-- btree_store.rs PAGE_HEADER_SIZE. -/
def PAGE_HEADER_SIZE : Nat := 9

/-- btree_store.rs META_DATA_HEADER_SIZE. -/
def META_DATA_HEADER_SIZE : Nat := 14

/-- btree_store.rs key_offset. -/
def key_offset : Nat := PAGE_HEADER_SIZE

/-- btree_store.rs key_array_size. -/
def key_array_size (max_degree : Nat) : Nat := (max_degree - 1) * 4

/-- btree_store.rs children_offset. -/
def children_offset (max_degree : Nat) : Nat := key_offset + key_array_size max_degree

/-- btree_store.rs children_array_size. -/
def children_array_size (max_degree : Nat) : Nat := max_degree * 4

/-- btree_store.rs values_offset. -/
def values_offset (max_degree : Nat) : Nat :=
  children_offset max_degree + children_array_size max_degree

/-- NodePager::page_size (btree_store.rs lines 171-178). -/
def page_size (max_degree : Nat) : Nat :=
  max_degree * 4 + (max_degree - 1) * 4 + (max_degree - 1) * 4 + PAGE_HEADER_SIZE

/-- The in-memory node page (node.rs struct NodePage).  The field
changed is the dirty flag used by btree_store.rs through
node.changed(); its declaration is missing from the node.rs snapshot
(only its callers are present), see NodePage.new_from_store. -/
structure NodePage where
  id : Nat
  deleted : Bool
  next_deleted_page : Option Nat
  keys : List Nat
  children : List Nat
  values : List Nat
  max_degree : Nat
  changed : Bool
deriving Repr, DecidableEq

/-- btree_store.rs struct StoreMetaData. -/
structure StoreMetaData where
  max_degree : Nat
  number_of_pages : Nat
  first_deleted_page : Option Nat
  root : Option Nat
  changed : Bool
deriving Repr, DecidableEq

/-- btree_store.rs meta_data_to_bytes: the 14-byte header. -/
def meta_data_to_bytes (m : StoreMetaData) : List Nat :=
  u16be m.max_degree ++ u32be m.number_of_pages ++
    get_u32_be_bytes_from_option m.first_deleted_page ++
    get_u32_be_bytes_from_option m.root

/-- The backing file (a byte list) together with the shared in-memory
metadata record: the state owned by BTreeStore and NodePager. -/
structure StoreState where
  file : List Nat
  meta : StoreMetaData
deriving Repr, DecidableEq

/-- Overwrite bytes of a file at an offset, extending the file when the
write reaches past the end; a seek past the end followed by a write
leaves a zero-filled hole, as for a sparse file. -/
def writeAt (file : List Nat) (off : Nat) (bytes : List Nat) : List Nat :=
  (file.take off ++ List.replicate (off - file.length) 0) ++ bytes ++
    file.drop (off + bytes.length)

/-- Read exactly len bytes at an offset (Read::read_exact): none when
the file ends before len bytes are available. -/
def readAt (file : List Nat) (off len : Nat) : Option (List Nat) :=
  if off + len ≤ file.length then some ((file.drop off).take len) else none

/-- Overwrite a run of bytes inside a fixed-size buffer
(slice copy_from_slice); none when the run would fall outside the
buffer, which panics in Rust. -/
def setBytes (data : List Nat) (off : Nat) (bytes : List Nat) : Option (List Nat) :=
  if off + bytes.length ≤ data.length then
    some (data.take off ++ bytes ++ data.drop (off + bytes.length))
  else none

/-- The key/children/values encoding loops of NodePager::write_page:
slot i of the array is written at off + 4*i. -/
def writeSlots (data : List Nat) (off : Nat) (xs : List Nat) : Option (List Nat) :=
  match xs with
  | [] => some data
  | x :: rest => do
      let d ← setBytes data off (u32be x)
      writeSlots d (off + 4) rest

/-- The array decoding loops of the From impl for NodePage
(btree_store.rs lines 109-145): read up to count slots, stopping at
the first sentinel. -/
def readSlots (bytes : List Nat) (off : Nat) (count : Nat) : Option (List Nat) :=
  match count with
  | 0 => some []
  | c + 1 => do
      let v ← u32de bytes off
      match read_u32_with_null v with
      | none => some []
      | some v => do
          let rest ← readSlots bytes (off + 4) c
          some (v :: rest)

/-- The From (Vec of u8, u16) impl for NodePage (btree_store.rs lines
89-148): decode one page buffer.  Reading a page whose stored id is the
sentinel panics in Rust and is an error here.  Modelled from the spec:
the dirty-flag initialisation of NodePage::new_from_store is part of
the NodePage dirty-flag code missing from node.rs (btree_store.rs uses
the flag through node.changed()); per the spec, the flag exists so that
read-only descents do not trigger writes, so a page decoded from disk
starts clean. -/
def NodePage.fromBytes (bytes : List Nat) (max_degree : Nat) : Except String NodePage :=
  match u32de bytes 0 with
  | none => .error "model: decode out of bounds"
  | some page_id =>
    if page_id = U32MAX then .error "Read a page with INVALID id." else
    match bytes.get? 4 with
    | none => .error "model: decode out of bounds"
    | some dbyte =>
      match u32de bytes 5 with
      | none => .error "model: decode out of bounds"
      | some nd =>
        match readSlots bytes key_offset (max_degree - 1) with
        | none => .error "model: decode out of bounds"
        | some keys =>
          match readSlots bytes (children_offset max_degree) max_degree with
          | none => .error "model: decode out of bounds"
          | some children =>
            match readSlots bytes (values_offset max_degree) (max_degree - 1) with
            | none => .error "model: decode out of bounds"
            | some values =>
              .ok { id := page_id
                    deleted := dbyte ≠ 0
                    next_deleted_page := read_u32_with_null nd
                    keys := keys
                    children := children
                    values := values
                    max_degree := max_degree
                    changed := false }

/-- The page-buffer construction of NodePager::write_page
(btree_store.rs lines 194-221): a 0xFF-filled buffer of page_size
bytes receiving the header fields and the three arrays; none when a
copy_from_slice would fall outside the buffer (a Rust panic). -/
def encodePage (max_degree : Nat) (node : NodePage) : Option (List Nat) := do
  let data := List.replicate (page_size max_degree) 255
  let data ← setBytes data 0 (u32be node.id)
  let data ← setBytes data 4 [if node.deleted then 1 else 0]
  let data ← setBytes data 5 (get_u32_be_bytes_from_option node.next_deleted_page)
  let data ← writeSlots data key_offset node.keys
  let data ← writeSlots data (children_offset max_degree) node.children
  writeSlots data (values_offset max_degree) node.values

/-- The state monad of the store: the Rust code threads the file handle
and the shared metadata RefCell through every operation. -/
abbrev M (α : Type) : Type := StateT StoreState (Except String) α

/-- NodePager::read_page (btree_store.rs lines 234-245). -/
def read_page (page_id : Nat) : M NodePage := do
  let s ← get
  let ps := page_size s.meta.max_degree
  match readAt s.file (META_DATA_HEADER_SIZE + ps * page_id) ps with
  | none => throw "Cannot read data (read_page)."
  | some data =>
    match NodePage.fromBytes data s.meta.max_degree with
    | .error e => throw e
    | .ok n => pure n

/-- NodePager::write_page (btree_store.rs lines 180-232): skip when the
dirty flag is clear, refuse the sentinel id and deleted pages, encode
and write at the page offset, then clear the dirty flag.  The returned
node is the argument with its flag cleared (in Rust the flag is
interior-mutable). -/
def write_page (node : NodePage) : M NodePage := do
  if node.changed = false then pure node
  else if node.id = U32MAX then throw "Cannot save page with the id 0xFFFFFFFF"
  else if node.deleted then throw "Cannot write deleted pages. Use delete for this operation"
  else do
    let s ← get
    let ps := page_size s.meta.max_degree
    match encodePage s.meta.max_degree node with
    | none => throw "model: page buffer write out of bounds"
    | some data => do
        set { s with file := writeAt s.file (META_DATA_HEADER_SIZE + ps * node.id) data }
        pure { node with changed := false }

/-- Modelled from the spec: the dirty-flag updates of NodePage are part
of the NodePage code missing from node.rs (only the callers in
btree_store.rs are present).  Per the spec, every content mutation of
an in-memory node marks it dirty before it can be written; this helper
is applied at exactly the mutation sites of the source.  This is also
forced by the btree_store.rs tests: the leaf mutation performed by the
recursive delete below a sibling repair must survive the final
write_page, which the flag cleared by the repair write would otherwise
suppress. -/
def NodePage.touch (self : NodePage) : NodePage :=
  { self with changed := true }

/-- NodePage::delete_page (node.rs lines 35-41). -/
def NodePage.delete_page (self : NodePage) (next_deleted : Option Nat) : NodePage :=
  { self with deleted := true, keys := [], children := [], values := [],
              next_deleted_page := next_deleted, changed := true }

/-- NodePage::reallocate (node.rs lines 43-49). -/
def NodePage.reallocate (self : NodePage) : NodePage :=
  { self with deleted := false, keys := [], children := [], values := [],
              next_deleted_page := none, changed := true }

/-- NodePage::new (node.rs lines 50-63); the id 0xFFFFFFFF panics.
The dirty flag of a brand-new page is true (see
NodePage.fromBytes on the missing flag declaration): the allocator
relies on write_page actually writing the fresh empty page. -/
def NodePage.new (max_degree : Nat) (id : Nat) : Except String NodePage :=
  if id = U32MAX then .error "Cannot write page with id 0xFFFFFFFF"
  else .ok { id := id, deleted := false, next_deleted_page := none,
             keys := [], children := [], values := [],
             max_degree := max_degree, changed := true }

/-- StoreMetaData::inc_number_of_pages (btree_store.rs lines 71-74);
number_of_pages is a u32. -/
def StoreMetaData.inc_number_of_pages (m : StoreMetaData) : StoreMetaData :=
  { m with number_of_pages := (m.number_of_pages + 1) % 4294967296, changed := true }

/-- StoreMetaData::set_first_deleted_page (btree_store.rs lines 76-79). -/
def StoreMetaData.set_first_deleted_page (m : StoreMetaData) (page : Option Nat) : StoreMetaData :=
  { m with first_deleted_page := page, changed := true }

/-- NodePager::delete_page (btree_store.rs lines 247-258): read the
page, mark the in-memory copy deleted and link it to the current
free-list head, then point the head at it.  The function issues no
write: the marker never reaches the file. -/
def pager_delete_page (page_id : Nat) : M Unit := do
  if page_id = U32MAX then throw "Cannot delete page_id 0xFFFFFFFF"
  else do
    let s ← get
    let first_deleted := s.meta.first_deleted_page
    let node ← read_page page_id
    let node := node.delete_page first_deleted
    modify fun s => { s with meta := s.meta.set_first_deleted_page (some node.id) }

/-- NodePager::allocate_new_page (btree_store.rs lines 260-286). -/
def allocate_new_page : M NodePage := do
  let s ← get
  match s.meta.first_deleted_page with
  | some first_deleted => do
      let allocated ← read_page first_deleted
      modify fun s =>
        { s with meta := s.meta.set_first_deleted_page allocated.next_deleted_page }
      let allocated := allocated.reallocate
      let allocated ← write_page allocated
      pure allocated
  | none => do
      modify fun s => { s with meta := s.meta.inc_number_of_pages }
      let s ← get
      let next_id := s.meta.number_of_pages - 1
      match NodePage.new s.meta.max_degree next_id with
      | .error e => throw e
      | .ok node => do
          let node ← write_page node
          pure { node with changed := true }

/-- node.rs enum FindKeyResponse. -/
inductive FindKeyResponse where
  | GreaterThanTheLast (i : Nat)
  | Equal (i : Nat)
  | LessThan (i : Nat)
deriving Repr, DecidableEq

/-- The scanning loop of NodePage::find_key_index. -/
def findKeyIndexLoop (key : Nat) (keys : List Nat) (i : Nat) (total : Nat) : FindKeyResponse :=
  match keys with
  | [] => .GreaterThanTheLast (total - 1)
  | k :: rest =>
      if key < k then .LessThan i
      else if key = k then .Equal i
      else findKeyIndexLoop key rest (i + 1) total

/-- NodePage::find_key_index (node.rs lines 203-213); the
GreaterThanTheLast index is keys.len() - 1 with saturating
subtraction, which Nat subtraction matches. -/
def NodePage.find_key_index (self : NodePage) (key : Nat) : FindKeyResponse :=
  findKeyIndexLoop key self.keys 0 self.keys.length

/-- NodePage::min_keys (node.rs lines 98-100).  The source computes
ceil(max_keys / 2) in f32 arithmetic; for max_keys up to 65534 every
intermediate f32 value is exact, so the result equals the Nat ceiling
(max_keys + 1) / 2. -/
def NodePage.min_keys (self : NodePage) : Nat :=
  (self.max_degree - 1 + 1) / 2

/-- NodePage::max_keys (node.rs lines 102-104). -/
def NodePage.max_keys (self : NodePage) : Nat :=
  self.max_degree - 1

/-- NodePage::is_leaf (node.rs lines 106-108). -/
def NodePage.is_leaf (self : NodePage) : Bool :=
  self.children.isEmpty

/-- NodePage::is_full (node.rs lines 280-282). -/
def NodePage.is_full (self : NodePage) : Bool :=
  decide (self.keys.length ≥ self.max_keys)

/-- NodePage::can_lend_keys (node.rs lines 284-286). -/
def NodePage.can_lend_keys (self : NodePage) : Bool :=
  decide (self.keys.length > self.min_keys)

/-- NodePage::is_less_than_minimal (node.rs lines 288-290). -/
def NodePage.is_less_than_minimal (self : NodePage) : Bool :=
  decide (self.keys.length < self.min_keys)

/-- NodePage::insert_key_value (node.rs lines 215-230): leaf insertion
with silent duplicate suppression. -/
def NodePage.insert_key_value (self : NodePage) (key value : Nat) : NodePage :=
  match self.find_key_index key with
  | .LessThan i =>
      NodePage.touch { self with keys := self.keys.insertIdx i key,
                                 values := self.values.insertIdx i value }
  | .GreaterThanTheLast _ =>
      NodePage.touch { self with keys := self.keys ++ [key],
                                 values := self.values ++ [value] }
  | .Equal _ => self

/-- NodePage::split (node.rs lines 157-201): split a full node into two
freshly allocated pages and return them with the promoted key.  The
drained original is discarded by every caller.  The two new pages keep
the dirty state produced by the field assignments. -/
def NodePage.split (self : NodePage) : M (NodePage × NodePage × Nat) := do
  let middle_value_index := self.keys.length / 2
  let right_keys := self.keys.drop middle_value_index
  let left_keys := self.keys.take middle_value_index
  let parts ←
    if self.is_leaf then
      match right_keys with
      | [] => throw "model: panic index out of bounds (split promoted key of empty node)"
      | promoted :: _ =>
          pure (right_keys, self.values.drop middle_value_index, ([] : List Nat),
                self.values.take middle_value_index, ([] : List Nat), promoted)
    else
      match right_keys with
      | [] => throw "model: panic remove on empty Vec (split promoted key)"
      | promoted :: rest =>
          pure (rest, ([] : List Nat), self.children.drop (middle_value_index + 1),
                ([] : List Nat), self.children.take (middle_value_index + 1), promoted)
  match parts with
  | (rkeys, rvalues, rchildren, lvalues, lchildren, promoted) => do
      let lnode ← allocate_new_page
      let lnode := NodePage.touch
        { lnode with values := lvalues, keys := left_keys, children := lchildren,
                     max_degree := self.max_degree }
      let lnode ← write_page lnode
      let rnode ← allocate_new_page
      let rnode := NodePage.touch
        { rnode with values := rvalues, keys := rkeys, children := rchildren,
                     max_degree := self.max_degree }
      let rnode ← write_page rnode
      pure (lnode, rnode, promoted)

/-- The descent-index computation shared by NodePage::insert and
NodePage::delete: the first index whose key is strictly greater than
the search key, or children.len() - 1. -/
def NodePage.node_index (self : NodePage) (key : Nat) : Nat :=
  match self.keys.findIdx? (fun k => decide (key < k)) with
  | some i => i
  | none => self.children.length - 1

/-- NodePage::insert (node.rs lines 232-278), recursive on fuel.  The
preemptive split in the non-tail case splices both halves in without
removing the old child pointer and then adjusts node_index; the
decrement underflows (a Rust panic) when node_index is 0. -/
def NodePage.insert : Nat → NodePage → Nat → Nat → M NodePage
  | 0, _, _, _ => throw "model: out of fuel"
  | fuel + 1, self, key, value => do
    if self.is_leaf then
      pure (self.insert_key_value key value)
    else do
      let node_index := self.node_index key
      match self.children.get? node_index with
      | none => throw "model: panic index out of bounds (children)"
      | some cid => do
        let child ← read_page cid
        let step ←
          if child.is_full then do
            let spl ← child.split
            match spl with
            | (lnode, rnode, new_key) =>
              if self.keys.length = node_index then
                pure (true,
                  NodePage.touch
                    { self with keys := self.keys ++ [new_key],
                                children := (self.children.set node_index lnode.id) ++ [rnode.id] },
                  if new_key < key then node_index + 1 else node_index)
              else
                let spliced := NodePage.touch
                  { self with keys := self.keys.insertIdx node_index new_key,
                              children := (self.children.insertIdx node_index rnode.id).insertIdx
                                            node_index lnode.id }
                if key < new_key then
                  if node_index = 0 then
                    throw "model: panic usize subtraction overflow (node_index)"
                  else
                    pure (true, spliced, node_index - 1)
                else
                  pure (true, spliced, node_index)
          else
            pure (false, self, node_index)
        match step with
        | (split, self, node_index) => do
          let child ←
            if split then
              match self.children.get? node_index with
              | none => throw "model: panic index out of bounds (children after split)"
              | some cid2 => read_page cid2
            else
              pure child
          let child ← NodePage.insert fuel child key value
          let _ ← write_page child
          pure self

/-- NodePage::find (node.rs lines 292-309), recursive on fuel. -/
def NodePage.find : Nat → NodePage → Nat → M (Option Nat)
  | 0, _, _ => throw "model: out of fuel"
  | fuel + 1, self, key =>
    match self.find_key_index key with
    | .GreaterThanTheLast i =>
        if self.is_leaf then pure none
        else do
          match self.children.get? (i + 1) with
          | none => throw "model: panic index out of bounds (children)"
          | some cid => do
              let child ← read_page cid
              NodePage.find fuel child key
    | .Equal i =>
        if self.is_leaf then
          match self.values.get? i with
          | none => throw "model: panic index out of bounds (values)"
          | some v => pure (some v)
        else do
          match self.children.get? (i + 1) with
          | none => throw "model: panic index out of bounds (children)"
          | some cid => do
              let child ← read_page cid
              NodePage.find fuel child key
    | .LessThan i =>
        if self.is_leaf then pure none
        else do
          match self.children.get? i with
          | none => throw "model: panic index out of bounds (children)"
          | some cid => do
              let child ← read_page cid
              NodePage.find fuel child key

/-- Vec::remove(i): the removed element and the shortened vector; none
when the index is out of bounds (a Rust panic). -/
def listRemove (xs : List Nat) (i : Nat) : Option (Nat × List Nat) :=
  match xs.get? i with
  | none => none
  | some x => some (x, xs.eraseIdx i)

/-- Vec::pop: the last element and the shortened vector. -/
def listPop (xs : List Nat) : Option (Nat × List Nat) :=
  match xs.getLast? with
  | none => none
  | some x => some (x, xs.dropLast)

/-- NodePage::delete (node.rs lines 312-438), recursive on fuel: leaf
removal, and the bottom-up repair (borrow from the left, borrow from
the right, merge left, merge right) before descending into a child
below min_keys.  write_page clears the interior dirty flag of the node
it writes, which the model threads through explicitly. -/
def NodePage.delete : Nat → NodePage → Nat → M (Option Nat × NodePage)
  | 0, _, _ => throw "model: out of fuel"
  | fuel + 1, self, key => do
    if self.is_leaf then
      match self.keys.findIdx? (fun k => decide (k = key)) with
      | none => pure (none, self)
      | some pos =>
          match listRemove self.values pos with
          | none => throw "model: panic Vec remove out of bounds (values)"
          | some (v, vals) =>
              pure (some v,
                NodePage.touch { self with keys := self.keys.eraseIdx pos, values := vals })
    else do
      let node_index := self.node_index key
      match self.children.get? node_index with
      | none => throw "model: panic index out of bounds (children)"
      | some tid => do
      let target_node ← read_page tid
      let rep ←
        if target_node.is_less_than_minimal then do
          let left_neighbor_can_lend ←
            if 0 < node_index then do
              match self.children.get? (node_index - 1) with
              | none => throw "model: panic index out of bounds (children)"
              | some lid => do
                  let left ← read_page lid
                  pure (some (left, left.can_lend_keys))
            else pure (none : Option (NodePage × Bool))
          let right_neighbor_can_lend ←
            if node_index + 1 < self.children.length then do
              match self.children.get? (node_index + 1) with
              | none => throw "model: panic index out of bounds (children)"
              | some rid => do
                  let right ← read_page rid
                  pure (some (right, right.can_lend_keys))
            else pure (none : Option (NodePage × Bool))
          match left_neighbor_can_lend with
          | some (left_node, true) =>
            if target_node.is_leaf then
              match listPop left_node.keys, listPop left_node.values with
              | some (k, lkeys), some (v, lvals) =>
                  let left_node := NodePage.touch { left_node with keys := lkeys, values := lvals }
                  let target_node := NodePage.touch
                    { target_node with keys := target_node.keys.insertIdx 0 k,
                                       values := target_node.values.insertIdx 0 v }
                  match target_node.keys.get? 0 with
                  | none => throw "model: panic index out of bounds (keys)"
                  | some tk0 =>
                    if node_index - 1 < self.keys.length then do
                      let self := NodePage.touch
                        { self with keys := self.keys.set (node_index - 1) tk0 }
                      let target_node ← write_page target_node
                      let _ ← write_page left_node
                      pure (self, target_node)
                    else throw "model: panic index out of bounds (keys)"
              | _, _ => throw "model: panic unwrap on empty Vec (pop)"
            else
              match listPop left_node.keys, listPop left_node.children with
              | some (left_key, lkeys), some (left_child, lchildren) =>
                  match self.keys.get? (node_index - 1) with
                  | none => throw "model: panic index out of bounds (keys)"
                  | some parent_key =>
                    let left_node := NodePage.touch
                      { left_node with keys := lkeys, children := lchildren }
                    let target_node := NodePage.touch
                      { target_node with keys := target_node.keys.insertIdx 0 parent_key,
                                         children := target_node.children.insertIdx 0 left_child }
                    if node_index - 1 < self.keys.length then do
                      let self := NodePage.touch
                        { self with keys := self.keys.set (node_index - 1) left_key }
                      let target_node ← write_page target_node
                      let _ ← write_page left_node
                      pure (self, target_node)
                    else throw "model: panic index out of bounds (keys)"
              | _, _ => throw "model: panic unwrap on empty Vec (pop)"
          | _ =>
            match right_neighbor_can_lend with
            | some (right_node, true) =>
              if target_node.is_leaf then
                match listRemove right_node.keys 0, listRemove right_node.values 0 with
                | some (k, rkeys), some (v, rvals) =>
                    let right_node := NodePage.touch
                      { right_node with keys := rkeys, values := rvals }
                    let target_node := NodePage.touch
                      { target_node with keys := target_node.keys ++ [k],
                                         values := target_node.values ++ [v] }
                    match right_node.keys.get? 0 with
                    | none => throw "model: panic index out of bounds (keys)"
                    | some rk0 =>
                      if node_index < self.keys.length then do
                        let self := NodePage.touch
                          { self with keys := self.keys.set node_index rk0 }
                        let target_node ← write_page target_node
                        let _ ← write_page right_node
                        pure (self, target_node)
                      else throw "model: panic index out of bounds (keys)"
                | _, _ => throw "model: panic Vec remove out of bounds"
              else
                match listRemove right_node.keys 0, listRemove right_node.children 0 with
                | some (right_key, rkeys), some (right_child, rchildren) =>
                    match self.keys.get? node_index with
                    | none => throw "model: panic index out of bounds (keys)"
                    | some parent_key =>
                      let right_node := NodePage.touch
                        { right_node with keys := rkeys, children := rchildren }
                      let target_node := NodePage.touch
                        { target_node with keys := target_node.keys ++ [parent_key],
                                           children := target_node.children ++ [right_child] }
                      if node_index < self.keys.length then do
                        let self := NodePage.touch
                          { self with keys := self.keys.set node_index right_key }
                        let target_node ← write_page target_node
                        let _ ← write_page right_node
                        pure (self, target_node)
                      else throw "model: panic index out of bounds (keys)"
                | _, _ => throw "model: panic Vec remove out of bounds"
            | _ =>
              match left_neighbor_can_lend with
              | some (left_node, _) => do
                  let left_index := node_index - 1
                  match listRemove self.children node_index with
                  | none => throw "model: panic Vec remove out of bounds (children)"
                  | some (_, schildren) =>
                    match listRemove self.keys left_index with
                    | none => throw "model: panic Vec remove out of bounds (keys)"
                    | some (separator, skeys) =>
                      let self := NodePage.touch
                        { self with children := schildren, keys := skeys }
                      let left_node :=
                        if left_node.is_leaf then
                          NodePage.touch
                            { left_node with keys := left_node.keys ++ target_node.keys,
                                             values := left_node.values ++ target_node.values }
                        else
                          NodePage.touch
                            { left_node with
                                keys := (left_node.keys ++ [separator]) ++ target_node.keys,
                                children := left_node.children ++ target_node.children }
                      let left_node ← write_page left_node
                      pager_delete_page target_node.id
                      pure (self, left_node)
              | none =>
                match right_neighbor_can_lend with
                | some (right_node, _) => do
                    match listRemove self.children (node_index + 1) with
                    | none => throw "model: panic Vec remove out of bounds (children)"
                    | some (_, schildren) =>
                      match listRemove self.keys node_index with
                      | none => throw "model: panic Vec remove out of bounds (keys)"
                      | some (separator, skeys) =>
                        let self := NodePage.touch
                          { self with children := schildren, keys := skeys }
                        let target_node :=
                          if target_node.is_leaf then
                            NodePage.touch
                              { target_node with
                                  keys := target_node.keys ++ right_node.keys,
                                  values := target_node.values ++ right_node.values }
                          else
                            NodePage.touch
                              { target_node with
                                  keys := (target_node.keys ++ [separator]) ++ right_node.keys,
                                  children := target_node.children ++ right_node.children }
                        let target_node ← write_page target_node
                        pager_delete_page right_node.id
                        pure (self, target_node)
                | none => pure (self, target_node)
        else
          pure (self, target_node)
      match rep with
      | (self, target_node) => do
          let rd ← NodePage.delete fuel target_node key
          match rd with
          | (res, target_node) => do
              let _ ← write_page target_node
              pure (res, self)

/-- BTreeStore::save_metadata (btree_store.rs lines 426-440): rewrite
the 14-byte header at offset 0 when the metadata changed; the changed
flag is never reset. -/
def save_metadata : M Unit := do
  let s ← get
  if s.meta.changed then
    set { s with file := writeAt s.file 0 (meta_data_to_bytes s.meta) }
  else
    pure ()

/-- BTreeStore::root (btree_store.rs lines 442-455): lazily allocate
the root page on first use.  The root field is assigned directly, not
through set_root, so only the allocation itself marks the metadata
changed. -/
def store_root : M NodePage := do
  let s ← get
  match s.meta.root with
  | some root_id => read_page root_id
  | none => do
      let new_root ← allocate_new_page
      modify fun s => { s with meta := { s.meta with root := some new_root.id } }
      save_metadata
      pure new_root

/-- BTreeStore::find (btree_store.rs lines 378-382). -/
def store_find (fuel : Nat) (key : Nat) : M (Option Nat) := do
  let root ← store_root
  NodePage.find fuel root key

/-- BTreeStore::insert (btree_store.rs lines 384-406): split a full
root first, install a new root with one key and two children, then run
the recursive node insert and write the root back. -/
def store_insert (fuel : Nat) (key value : Nat) : M Unit := do
  let root ← store_root
  let root ←
    if root.is_full then do
      let spl ← root.split
      match spl with
      | (lnode, rnode, root_key) => do
          let new_root ← tryCatch allocate_new_page
            (fun _ => throw "Cannot allocate new page (op: insert)")
          let new_root := NodePage.touch
            { new_root with keys := new_root.keys ++ [root_key],
                            children := (new_root.children ++ [lnode.id]) ++ [rnode.id] }
          modify fun s => { s with meta := { s.meta with root := some new_root.id } }
          pure { new_root with changed := true }
    else
      pure root
  let root ← NodePage.insert fuel root key value
  let _ ← tryCatch (write_page root)
    (fun _ => throw "Cannot write new root (op: insert)")
  save_metadata

/-- BTreeStore::delete (btree_store.rs lines 408-424): recursive delete
from the root, then collapse an internal root left with zero keys into
its single remaining child (the debug assertion on the child count is
modelled as an error when violated). -/
def store_delete (fuel : Nat) (key : Nat) : M (Option Nat) := do
  let root ← store_root
  let rd ← NodePage.delete fuel root key
  match rd with
  | (res, root) => do
      let root ←
        if root.keys.isEmpty && !root.is_leaf then
          if root.children.length = 1 then do
            match listRemove root.children 0 with
            | none => throw "model: panic Vec remove out of bounds (children)"
            | some (new_root, _) => do
                let root2 ← read_page new_root
                modify fun s => { s with meta := { s.meta with root := some new_root } }
                pure root2
          else
            throw "Internal root node must have exactly 1 child when it is out of keys"
        else
          pure root
      let _ ← write_page root
      save_metadata
      pure res

/-- The fs::metadata error message surfaced by BTreeStore::new when no
file exists at the path. -/
def FS_METADATA_ERR : String := "No such file or directory (os error 2)"

/-- BTreeStore::new (btree_store.rs lines 309-371).  The file-system
argument is none when no file exists at the path and some bytes
otherwise.  The degree check comes first; then fs::metadata is queried
and its error propagates for a missing file; an existing file of at
least 14 bytes has its header decoded and reused, and a shorter one is
(re)written with a fresh header built from the supplied degree. -/
def BTreeStore.new (file : Option (List Nat)) (max_degree : Nat) : Except String StoreState :=
  if max_degree < 4 then .error "BTreeStore must have at least a max degree of 4"
  else
    match file with
    | none => .error FS_METADATA_ERR
    | some bytes =>
      if META_DATA_HEADER_SIZE ≤ bytes.length then
        match u16de bytes 0, u32de bytes 2, u32de bytes 6, u32de bytes 10 with
        | some md, some np, some fd, some rt =>
            .ok { file := bytes,
                  meta := { max_degree := md, number_of_pages := np,
                            first_deleted_page := read_u32_with_null fd,
                            root := read_u32_with_null rt, changed := false } }
        | _, _, _, _ => .error "model: header decode out of bounds"
      else
        let m : StoreMetaData :=
          { max_degree := max_degree, number_of_pages := 0,
            first_deleted_page := none, root := none, changed := false }
        .ok { file := writeAt bytes 0 (meta_data_to_bytes m), meta := m }

/-- Run a store operation on a state, exposing the Except result. -/
def runM {α : Type} (m : M α) (s : StoreState) : Except String (α × StoreState) :=
  StateT.run m s

/-- Insert a list of key-value pairs in order through BTreeStore::insert. -/
def store_insert_all (fuel : Nat) : List (Nat × Nat) → M Unit
  | [] => pure ()
  | (k, v) :: rest => do
      store_insert fuel k v
      store_insert_all fuel rest

/-- Read and decode the page stored at a slot of a state, outside the
monad; agrees with read_page (see run_read_page below). -/
def pageAt (s : StoreState) (id : Nat) : Except String NodePage :=
  match readAt s.file (META_DATA_HEADER_SIZE + page_size s.meta.max_degree * id)
      (page_size s.meta.max_degree) with
  | none => .error "Cannot read data (read_page)."
  | some data => NodePage.fromBytes data s.meta.max_degree

/-- Open a store on an existing empty file with the given degree and
run a sequence of inserts. -/
def runInserts (degree : Nat) (ps : List (Nat × Nat)) : Except String StoreState :=
  (BTreeStore.new (some []) degree).bind fun s0 =>
    (runM (store_insert_all 20 ps) s0).map Prod.snd

/-- Insert sequence at degree 4 whose last insert descends through a
full child that is not at the tail position of the root, forcing the
non-tail branch of the preemptive split splice. -/
def splitSeq : List (Nat × Nat) :=
  [(10, 10), (20, 20), (30, 30), (50, 50), (1, 1), (2, 2), (3, 3)]

/-- Insert sequence at degree 4 producing a root [20] over the leaves
[10] and [20, 30, 50]. -/
def fourSeq : List (Nat × Nat) :=
  [(10, 10), (20, 20), (30, 30), (50, 50)]

/-- State after fourSeq at degree 4. -/
def fourState : Except String StoreState := runInserts 4 fourSeq

/-- State after splitSeq at degree 4. -/
def splitState : Except String StoreState := runInserts 4 splitSeq

/-- State after fourSeq followed by a duplicate insert of key 30 with a
different value; the duplicate descends through a full child whose
split promotes 30 itself. -/
def dupState : Except String StoreState :=
  fourState.bind fun s => (runM (store_insert 20 30 999) s).map Prod.snd

/-- A degree-10 store holding two manually allocated pages with content,
after the second page (id 1) was pushed on the free list through
NodePager::delete_page; mirrors the reallocate_deleted_page test of
btree_store.rs. -/
def recycleScenario : Except String StoreState :=
  (BTreeStore.new (some []) 10).bind fun s0 =>
    (runM (do
      let p1 ← allocate_new_page
      let p1 := NodePage.touch { p1 with keys := p1.keys ++ [1] ++ [5] }
      let _ ← write_page p1
      let p2 ← allocate_new_page
      let p2 := NodePage.touch { p2 with keys := p2.keys ++ [7] ++ [10] }
      let _ ← write_page p2
      pager_delete_page 1
      save_metadata) s0).map Prod.snd

/-- First session of the reopen scenario: a fresh degree-10 store with
three inserted keys; the file survives the (implicit) close. -/
def reopenSession1 : Except String StoreState :=
  runInserts 10 [(1, 1), (2, 2), (3, 3)]

/-- Second session: reopen the session-1 file with degree argument 100. -/
def reopenSession2 : Except String StoreState :=
  reopenSession1.bind fun s => BTreeStore.new (some s.file) 100

/-- A well-formed 14-byte metadata header recording max_degree 10. -/
def hdr10 : List Nat :=
  meta_data_to_bytes
    { max_degree := 10, number_of_pages := 0, first_deleted_page := none,
      root := none, changed := false }

/-- The effect of save_metadata alone on a state: the header region is
rewritten when the metadata changed flag is set. -/
def metaFlushed (s : StoreState) : StoreState :=
  if s.meta.changed then { s with file := writeAt s.file 0 (meta_data_to_bytes s.meta) }
  else s

/-
Explicit values of the intermediate store states of the scenarios
above, computed by the model itself; the step theorems below prove by
rfl that each operation maps one literal state to the next, which
keeps every kernel reduction to a single operation.
-/

def sA0 : StoreState := ⟨[0, 4, 0, 0, 0, 0, 255, 255, 255, 255, 255, 255, 255, 255], ⟨4, 0, none, none, false⟩⟩

def sA1 : StoreState := ⟨[0, 4, 0, 0, 0, 1, 255, 255, 255, 255, 0, 0, 0, 0, 0, 0, 0, 0, 0, 255, 255, 255, 255, 0, 0, 0, 10, 255, 255, 255, 255, 255, 255, 255, 255, 255, 255, 255, 255, 255, 255, 255, 255, 255, 255, 255, 255, 255, 255, 255, 255, 0, 0, 0, 10, 255, 255, 255, 255, 255, 255, 255, 255], ⟨4, 1, none, some 0, true⟩⟩

def sA2 : StoreState := ⟨[0, 4, 0, 0, 0, 1, 255, 255, 255, 255, 0, 0, 0, 0, 0, 0, 0, 0, 0, 255, 255, 255, 255, 0, 0, 0, 10, 0, 0, 0, 20, 255, 255, 255, 255, 255, 255, 255, 255, 255, 255, 255, 255, 255, 255, 255, 255, 255, 255, 255, 255, 0, 0, 0, 10, 0, 0, 0, 20, 255, 255, 255, 255], ⟨4, 1, none, some 0, true⟩⟩

def sA3 : StoreState := ⟨[0, 4, 0, 0, 0, 1, 255, 255, 255, 255, 0, 0, 0, 0, 0, 0, 0, 0, 0, 255, 255, 255, 255, 0, 0, 0, 10, 0, 0, 0, 20, 0, 0, 0, 30, 255, 255, 255, 255, 255, 255, 255, 255, 255, 255, 255, 255, 255, 255, 255, 255, 0, 0, 0, 10, 0, 0, 0, 20, 0, 0, 0, 30], ⟨4, 1, none, some 0, true⟩⟩

def sA4 : StoreState := ⟨[0, 4, 0, 0, 0, 4, 255, 255, 255, 255, 0, 0, 0, 3, 0, 0, 0, 0, 0, 255, 255, 255, 255, 0, 0, 0, 10, 0, 0, 0, 20, 0, 0, 0, 30, 255, 255, 255, 255, 255, 255, 255, 255, 255, 255, 255, 255, 255, 255, 255, 255, 0, 0, 0, 10, 0, 0, 0, 20, 0, 0, 0, 30, 0, 0, 0, 1, 0, 255, 255, 255, 255, 0, 0, 0, 10, 255, 255, 255, 255, 255, 255, 255, 255, 255, 255, 255, 255, 255, 255, 255, 255, 255, 255, 255, 255, 255, 255, 255, 255, 0, 0, 0, 10, 255, 255, 255, 255, 255, 255, 255, 255, 0, 0, 0, 2, 0, 255, 255, 255, 255, 0, 0, 0, 20, 0, 0, 0, 30, 0, 0, 0, 50, 255, 255, 255, 255, 255, 255, 255, 255, 255, 255, 255, 255, 255, 255, 255, 255, 0, 0, 0, 20, 0, 0, 0, 30, 0, 0, 0, 50, 0, 0, 0, 3, 0, 255, 255, 255, 255, 0, 0, 0, 20, 255, 255, 255, 255, 255, 255, 255, 255, 0, 0, 0, 1, 0, 0, 0, 2, 255, 255, 255, 255, 255, 255, 255, 255, 255, 255, 255, 255, 255, 255, 255, 255, 255, 255, 255, 255], ⟨4, 4, none, some 3, true⟩⟩

def sA5 : StoreState := ⟨[0, 4, 0, 0, 0, 4, 255, 255, 255, 255, 0, 0, 0, 3, 0, 0, 0, 0, 0, 255, 255, 255, 255, 0, 0, 0, 10, 0, 0, 0, 20, 0, 0, 0, 30, 255, 255, 255, 255, 255, 255, 255, 255, 255, 255, 255, 255, 255, 255, 255, 255, 0, 0, 0, 10, 0, 0, 0, 20, 0, 0, 0, 30, 0, 0, 0, 1, 0, 255, 255, 255, 255, 0, 0, 0, 1, 0, 0, 0, 10, 255, 255, 255, 255, 255, 255, 255, 255, 255, 255, 255, 255, 255, 255, 255, 255, 255, 255, 255, 255, 0, 0, 0, 1, 0, 0, 0, 10, 255, 255, 255, 255, 0, 0, 0, 2, 0, 255, 255, 255, 255, 0, 0, 0, 20, 0, 0, 0, 30, 0, 0, 0, 50, 255, 255, 255, 255, 255, 255, 255, 255, 255, 255, 255, 255, 255, 255, 255, 255, 0, 0, 0, 20, 0, 0, 0, 30, 0, 0, 0, 50, 0, 0, 0, 3, 0, 255, 255, 255, 255, 0, 0, 0, 20, 255, 255, 255, 255, 255, 255, 255, 255, 0, 0, 0, 1, 0, 0, 0, 2, 255, 255, 255, 255, 255, 255, 255, 255, 255, 255, 255, 255, 255, 255, 255, 255, 255, 255, 255, 255], ⟨4, 4, none, some 3, true⟩⟩

def sA6 : StoreState := ⟨[0, 4, 0, 0, 0, 4, 255, 255, 255, 255, 0, 0, 0, 3, 0, 0, 0, 0, 0, 255, 255, 255, 255, 0, 0, 0, 10, 0, 0, 0, 20, 0, 0, 0, 30, 255, 255, 255, 255, 255, 255, 255, 255, 255, 255, 255, 255, 255, 255, 255, 255, 0, 0, 0, 10, 0, 0, 0, 20, 0, 0, 0, 30, 0, 0, 0, 1, 0, 255, 255, 255, 255, 0, 0, 0, 1, 0, 0, 0, 2, 0, 0, 0, 10, 255, 255, 255, 255, 255, 255, 255, 255, 255, 255, 255, 255, 255, 255, 255, 255, 0, 0, 0, 1, 0, 0, 0, 2, 0, 0, 0, 10, 0, 0, 0, 2, 0, 255, 255, 255, 255, 0, 0, 0, 20, 0, 0, 0, 30, 0, 0, 0, 50, 255, 255, 255, 255, 255, 255, 255, 255, 255, 255, 255, 255, 255, 255, 255, 255, 0, 0, 0, 20, 0, 0, 0, 30, 0, 0, 0, 50, 0, 0, 0, 3, 0, 255, 255, 255, 255, 0, 0, 0, 20, 255, 255, 255, 255, 255, 255, 255, 255, 0, 0, 0, 1, 0, 0, 0, 2, 255, 255, 255, 255, 255, 255, 255, 255, 255, 255, 255, 255, 255, 255, 255, 255, 255, 255, 255, 255], ⟨4, 4, none, some 3, true⟩⟩

def sA7 : StoreState := ⟨[0, 4, 0, 0, 0, 6, 255, 255, 255, 255, 0, 0, 0, 3, 0, 0, 0, 0, 0, 255, 255, 255, 255, 0, 0, 0, 10, 0, 0, 0, 20, 0, 0, 0, 30, 255, 255, 255, 255, 255, 255, 255, 255, 255, 255, 255, 255, 255, 255, 255, 255, 0, 0, 0, 10, 0, 0, 0, 20, 0, 0, 0, 30, 0, 0, 0, 1, 0, 255, 255, 255, 255, 0, 0, 0, 1, 0, 0, 0, 2, 0, 0, 0, 10, 255, 255, 255, 255, 255, 255, 255, 255, 255, 255, 255, 255, 255, 255, 255, 255, 0, 0, 0, 1, 0, 0, 0, 2, 0, 0, 0, 10, 0, 0, 0, 2, 0, 255, 255, 255, 255, 0, 0, 0, 20, 0, 0, 0, 30, 0, 0, 0, 50, 255, 255, 255, 255, 255, 255, 255, 255, 255, 255, 255, 255, 255, 255, 255, 255, 0, 0, 0, 20, 0, 0, 0, 30, 0, 0, 0, 50, 0, 0, 0, 3, 0, 255, 255, 255, 255, 0, 0, 0, 2, 0, 0, 0, 20, 255, 255, 255, 255, 0, 0, 0, 4, 0, 0, 0, 5, 0, 0, 0, 1, 0, 0, 0, 2, 255, 255, 255, 255, 255, 255, 255, 255, 255, 255, 255, 255, 0, 0, 0, 4, 0, 255, 255, 255, 255, 0, 0, 0, 1, 0, 0, 0, 3, 255, 255, 255, 255, 255, 255, 255, 255, 255, 255, 255, 255, 255, 255, 255, 255, 255, 255, 255, 255, 0, 0, 0, 1, 0, 0, 0, 3, 255, 255, 255, 255, 0, 0, 0, 5, 0, 255, 255, 255, 255, 0, 0, 0, 2, 0, 0, 0, 10, 255, 255, 255, 255, 255, 255, 255, 255, 255, 255, 255, 255, 255, 255, 255, 255, 255, 255, 255, 255, 0, 0, 0, 2, 0, 0, 0, 10, 255, 255, 255, 255], ⟨4, 6, none, some 3, true⟩⟩

def dupLit : StoreState := ⟨[0, 4, 0, 0, 0, 6, 255, 255, 255, 255, 0, 0, 0, 3, 0, 0, 0, 0, 0, 255, 255, 255, 255, 0, 0, 0, 10, 0, 0, 0, 20, 0, 0, 0, 30, 255, 255, 255, 255, 255, 255, 255, 255, 255, 255, 255, 255, 255, 255, 255, 255, 0, 0, 0, 10, 0, 0, 0, 20, 0, 0, 0, 30, 0, 0, 0, 1, 0, 255, 255, 255, 255, 0, 0, 0, 10, 255, 255, 255, 255, 255, 255, 255, 255, 255, 255, 255, 255, 255, 255, 255, 255, 255, 255, 255, 255, 255, 255, 255, 255, 0, 0, 0, 10, 255, 255, 255, 255, 255, 255, 255, 255, 0, 0, 0, 2, 0, 255, 255, 255, 255, 0, 0, 0, 20, 0, 0, 0, 30, 0, 0, 0, 50, 255, 255, 255, 255, 255, 255, 255, 255, 255, 255, 255, 255, 255, 255, 255, 255, 0, 0, 0, 20, 0, 0, 0, 30, 0, 0, 0, 50, 0, 0, 0, 3, 0, 255, 255, 255, 255, 0, 0, 0, 20, 0, 0, 0, 30, 255, 255, 255, 255, 0, 0, 0, 1, 0, 0, 0, 4, 0, 0, 0, 5, 255, 255, 255, 255, 255, 255, 255, 255, 255, 255, 255, 255, 255, 255, 255, 255, 0, 0, 0, 4, 0, 255, 255, 255, 255, 0, 0, 0, 20, 0, 0, 0, 30, 255, 255, 255, 255, 255, 255, 255, 255, 255, 255, 255, 255, 255, 255, 255, 255, 255, 255, 255, 255, 0, 0, 0, 20, 0, 0, 3, 231, 255, 255, 255, 255, 0, 0, 0, 5, 0, 255, 255, 255, 255, 0, 0, 0, 30, 0, 0, 0, 50, 255, 255, 255, 255, 255, 255, 255, 255, 255, 255, 255, 255, 255, 255, 255, 255, 255, 255, 255, 255, 0, 0, 0, 30, 0, 0, 0, 50, 255, 255, 255, 255], ⟨4, 6, none, some 3, true⟩⟩

def wLit : StoreState := ⟨[0, 4, 0, 0, 0, 4, 255, 255, 255, 255, 0, 0, 0, 3, 0, 0, 0, 0, 0, 255, 255, 255, 255, 0, 0, 0, 10, 0, 0, 0, 20, 0, 0, 0, 30, 255, 255, 255, 255, 255, 255, 255, 255, 255, 255, 255, 255, 255, 255, 255, 255, 0, 0, 0, 10, 0, 0, 0, 20, 0, 0, 0, 30, 0, 0, 0, 1, 0, 255, 255, 255, 255, 0, 0, 0, 5, 0, 0, 0, 10, 255, 255, 255, 255, 255, 255, 255, 255, 255, 255, 255, 255, 255, 255, 255, 255, 255, 255, 255, 255, 0, 0, 0, 5, 0, 0, 0, 10, 255, 255, 255, 255, 0, 0, 0, 2, 0, 255, 255, 255, 255, 0, 0, 0, 20, 0, 0, 0, 30, 0, 0, 0, 50, 255, 255, 255, 255, 255, 255, 255, 255, 255, 255, 255, 255, 255, 255, 255, 255, 0, 0, 0, 20, 0, 0, 0, 30, 0, 0, 0, 50, 0, 0, 0, 3, 0, 255, 255, 255, 255, 0, 0, 0, 20, 255, 255, 255, 255, 255, 255, 255, 255, 0, 0, 0, 1, 0, 0, 0, 2, 255, 255, 255, 255, 255, 255, 255, 255, 255, 255, 255, 255, 255, 255, 255, 255, 255, 255, 255, 255], ⟨4, 4, none, some 3, true⟩⟩

def sB0 : StoreState := ⟨[0, 10, 0, 0, 0, 0, 255, 255, 255, 255, 255, 255, 255, 255], ⟨10, 0, none, none, false⟩⟩

def sB1 : StoreState := ⟨[0, 10, 0, 0, 0, 1, 255, 255, 255, 255, 0, 0, 0, 0, 0, 0, 0, 0, 0, 255, 255, 255, 255, 0, 0, 0, 1, 255, 255, 255, 255, 255, 255, 255, 255, 255, 255, 255, 255, 255, 255, 255, 255, 255, 255, 255, 255, 255, 255, 255, 255, 255, 255, 255, 255, 255, 255, 255, 255, 255, 255, 255, 255, 255, 255, 255, 255, 255, 255, 255, 255, 255, 255, 255, 255, 255, 255, 255, 255, 255, 255, 255, 255, 255, 255, 255, 255, 255, 255, 255, 255, 255, 255, 255, 255, 255, 255, 255, 255, 0, 0, 0, 1, 255, 255, 255, 255, 255, 255, 255, 255, 255, 255, 255, 255, 255, 255, 255, 255, 255, 255, 255, 255, 255, 255, 255, 255, 255, 255, 255, 255, 255, 255, 255, 255], ⟨10, 1, none, some 0, true⟩⟩

def sB2 : StoreState := ⟨[0, 10, 0, 0, 0, 1, 255, 255, 255, 255, 0, 0, 0, 0, 0, 0, 0, 0, 0, 255, 255, 255, 255, 0, 0, 0, 1, 0, 0, 0, 2, 255, 255, 255, 255, 255, 255, 255, 255, 255, 255, 255, 255, 255, 255, 255, 255, 255, 255, 255, 255, 255, 255, 255, 255, 255, 255, 255, 255, 255, 255, 255, 255, 255, 255, 255, 255, 255, 255, 255, 255, 255, 255, 255, 255, 255, 255, 255, 255, 255, 255, 255, 255, 255, 255, 255, 255, 255, 255, 255, 255, 255, 255, 255, 255, 255, 255, 255, 255, 0, 0, 0, 1, 0, 0, 0, 2, 255, 255, 255, 255, 255, 255, 255, 255, 255, 255, 255, 255, 255, 255, 255, 255, 255, 255, 255, 255, 255, 255, 255, 255, 255, 255, 255, 255], ⟨10, 1, none, some 0, true⟩⟩

def sB3 : StoreState := ⟨[0, 10, 0, 0, 0, 1, 255, 255, 255, 255, 0, 0, 0, 0, 0, 0, 0, 0, 0, 255, 255, 255, 255, 0, 0, 0, 1, 0, 0, 0, 2, 0, 0, 0, 3, 255, 255, 255, 255, 255, 255, 255, 255, 255, 255, 255, 255, 255, 255, 255, 255, 255, 255, 255, 255, 255, 255, 255, 255, 255, 255, 255, 255, 255, 255, 255, 255, 255, 255, 255, 255, 255, 255, 255, 255, 255, 255, 255, 255, 255, 255, 255, 255, 255, 255, 255, 255, 255, 255, 255, 255, 255, 255, 255, 255, 255, 255, 255, 255, 0, 0, 0, 1, 0, 0, 0, 2, 0, 0, 0, 3, 255, 255, 255, 255, 255, 255, 255, 255, 255, 255, 255, 255, 255, 255, 255, 255, 255, 255, 255, 255, 255, 255, 255, 255], ⟨10, 1, none, some 0, true⟩⟩

def recLit : StoreState := ⟨[0, 10, 0, 0, 0, 2, 0, 0, 0, 1, 255, 255, 255, 255, 0, 0, 0, 0, 0, 255, 255, 255, 255, 0, 0, 0, 1, 0, 0, 0, 5, 255, 255, 255, 255, 255, 255, 255, 255, 255, 255, 255, 255, 255, 255, 255, 255, 255, 255, 255, 255, 255, 255, 255, 255, 255, 255, 255, 255, 255, 255, 255, 255, 255, 255, 255, 255, 255, 255, 255, 255, 255, 255, 255, 255, 255, 255, 255, 255, 255, 255, 255, 255, 255, 255, 255, 255, 255, 255, 255, 255, 255, 255, 255, 255, 255, 255, 255, 255, 255, 255, 255, 255, 255, 255, 255, 255, 255, 255, 255, 255, 255, 255, 255, 255, 255, 255, 255, 255, 255, 255, 255, 255, 255, 255, 255, 255, 255, 255, 255, 255, 255, 255, 255, 255, 0, 0, 0, 1, 0, 255, 255, 255, 255, 0, 0, 0, 7, 0, 0, 0, 10, 255, 255, 255, 255, 255, 255, 255, 255, 255, 255, 255, 255, 255, 255, 255, 255, 255, 255, 255, 255, 255, 255, 255, 255, 255, 255, 255, 255, 255, 255, 255, 255, 255, 255, 255, 255, 255, 255, 255, 255, 255, 255, 255, 255, 255, 255, 255, 255, 255, 255, 255, 255, 255, 255, 255, 255, 255, 255, 255, 255, 255, 255, 255, 255, 255, 255, 255, 255, 255, 255, 255, 255, 255, 255, 255, 255, 255, 255, 255, 255, 255, 255, 255, 255, 255, 255, 255, 255, 255, 255, 255, 255, 255, 255, 255, 255, 255, 255, 255, 255, 255, 255, 255, 255], ⟨10, 2, some 1, none, true⟩⟩

def d15Lit : StoreState := ⟨[0, 4, 0, 0, 0, 4, 255, 255, 255, 255, 0, 0, 0, 3, 0, 0, 0, 0, 0, 255, 255, 255, 255, 0, 0, 0, 10, 0, 0, 0, 20, 0, 0, 0, 30, 255, 255, 255, 255, 255, 255, 255, 255, 255, 255, 255, 255, 255, 255, 255, 255, 0, 0, 0, 10, 0, 0, 0, 20, 0, 0, 0, 30, 0, 0, 0, 1, 0, 255, 255, 255, 255, 0, 0, 0, 10, 0, 0, 0, 20, 255, 255, 255, 255, 255, 255, 255, 255, 255, 255, 255, 255, 255, 255, 255, 255, 255, 255, 255, 255, 0, 0, 0, 10, 0, 0, 0, 20, 255, 255, 255, 255, 0, 0, 0, 2, 0, 255, 255, 255, 255, 0, 0, 0, 30, 0, 0, 0, 50, 255, 255, 255, 255, 255, 255, 255, 255, 255, 255, 255, 255, 255, 255, 255, 255, 255, 255, 255, 255, 0, 0, 0, 30, 0, 0, 0, 50, 255, 255, 255, 255, 0, 0, 0, 3, 0, 255, 255, 255, 255, 0, 0, 0, 30, 255, 255, 255, 255, 255, 255, 255, 255, 0, 0, 0, 1, 0, 0, 0, 2, 255, 255, 255, 255, 255, 255, 255, 255, 255, 255, 255, 255, 255, 255, 255, 255, 255, 255, 255, 255], ⟨4, 4, none, some 3, true⟩⟩

def d20Lit : StoreState := ⟨[0, 4, 0, 0, 0, 4, 255, 255, 255, 255, 0, 0, 0, 3, 0, 0, 0, 0, 0, 255, 255, 255, 255, 0, 0, 0, 10, 0, 0, 0, 20, 0, 0, 0, 30, 255, 255, 255, 255, 255, 255, 255, 255, 255, 255, 255, 255, 255, 255, 255, 255, 0, 0, 0, 10, 0, 0, 0, 20, 0, 0, 0, 30, 0, 0, 0, 1, 0, 255, 255, 255, 255, 0, 0, 0, 10, 255, 255, 255, 255, 255, 255, 255, 255, 255, 255, 255, 255, 255, 255, 255, 255, 255, 255, 255, 255, 255, 255, 255, 255, 0, 0, 0, 10, 255, 255, 255, 255, 255, 255, 255, 255, 0, 0, 0, 2, 0, 255, 255, 255, 255, 0, 0, 0, 30, 0, 0, 0, 50, 255, 255, 255, 255, 255, 255, 255, 255, 255, 255, 255, 255, 255, 255, 255, 255, 255, 255, 255, 255, 0, 0, 0, 30, 0, 0, 0, 50, 255, 255, 255, 255, 0, 0, 0, 3, 0, 255, 255, 255, 255, 0, 0, 0, 20, 255, 255, 255, 255, 255, 255, 255, 255, 0, 0, 0, 1, 0, 0, 0, 2, 255, 255, 255, 255, 255, 255, 255, 255, 255, 255, 255, 255, 255, 255, 255, 255, 255, 255, 255, 255], ⟨4, 4, none, some 3, true⟩⟩

/-- The strict ascending check on a key array used by wfNode. -/
def keysSorted : List Nat → Bool
  | [] => true
  | [_] => true
  | a :: b :: rest => decide (a < b) && keysSorted (b :: rest)

/-- Structural well-formedness of the subtree rooted at a page slot, up
to a fuel bound dominating the height: the slot decodes (and, being
freshly decoded, is clean and live), its keys are strictly ascending,
a non-root node meets min_keys, and an internal node has one more
child than keys (at least one key) with well-formed child subtrees.
These are the invariants the spec asserts for every live node. -/
def wfNode : Nat → StoreState → Nat → Bool → Bool
  | 0, _, _, _ => false
  | fuel + 1, s, id, isRoot =>
    match pageAt s id with
    | .error _ => false
    | .ok p =>
      !p.changed && !p.deleted && keysSorted p.keys
        && (isRoot || decide (p.min_keys ≤ p.keys.length))
        && (if p.is_leaf then true
            else decide (1 ≤ p.keys.length)
              && decide (p.children.length = p.keys.length + 1)
              && p.children.all (fun c => wfNode fuel s c false))

/-- The key is absent from every leaf of the subtree rooted at the
given page slot, within a fuel bound dominating the height: every
reachable page decodes and the key occurs in no leaf key array below
the slot.  Internal key arrays are not constrained: a separator equal
to the key may remain after a delete (see
c10_separator_stays_after_delete). -/
def subtreeAbsent : Nat → StoreState → Nat → Nat → Bool
  | 0, _, _, _ => false
  | fuel + 1, s, id, key =>
    match pageAt s id with
    | .error _ => false
    | .ok p =>
      if p.is_leaf then decide (¬ key ∈ p.keys)
      else p.children.all (fun c => subtreeAbsent fuel s c key)

set_option maxRecDepth 100000
set_option maxHeartbeats 4000000

theorem exbind_ok {e a b : Type} (x : a) (f : a → Except e b) :
    (Except.ok x : Except e a).bind f = f x := rfl

theorem runM_bind {a b : Type} (m : M a) (k : a → M b) (s : StoreState) :
    runM (m >>= k) s = (runM m s).bind fun p => runM (k p.1) p.2 := rfl

theorem runM_pure {a : Type} (x : a) (s : StoreState) : runM (pure x : M a) s = .ok (x, s) := rfl

theorem runM_get (s : StoreState) : runM (get : M StoreState) s = .ok (s, s) := rfl

theorem runM_set (t s : StoreState) : runM (set t : M Unit) s = .ok ((), t) := rfl

theorem runM_modify (f : StoreState → StoreState) (s : StoreState) :
    runM (modify f : M Unit) s = .ok ((), f s) := rfl

theorem runM_throw {a : Type} (e : String) (s : StoreState) :
    runM (throw e : M a) s = .error e := rfl

theorem runM_tryCatch {a : Type} (m : M a) (h : String → M a) (s : StoreState) :
    runM (tryCatch m h) s =
      match runM m s with
      | .ok p => .ok p
      | .error e => runM (h e) s := by
  show Except.tryCatch (runM m s) (fun e => runM (h e) s) = _
  cases runM m s with
  | ok p => rfl
  | error e => rfl

theorem uA1 : runM store_root sA3 = .ok (⟨0, false, none, [10, 20, 30], [], [10, 20, 30], 4, false⟩, sA3) := by rfl

theorem uA2 : runM (NodePage.split ⟨0, false, none, [10, 20, 30], [], [10, 20, 30], 4, false⟩) sA3 = .ok ((⟨1, false, none, [10], [], [10], 4, false⟩, ⟨2, false, none, [20, 30], [], [20, 30], 4, false⟩, 20), ⟨[0, 4, 0, 0, 0, 1, 255, 255, 255, 255, 0, 0, 0, 0, 0, 0, 0, 0, 0, 255, 255, 255, 255, 0, 0, 0, 10, 0, 0, 0, 20, 0, 0, 0, 30, 255, 255, 255, 255, 255, 255, 255, 255, 255, 255, 255, 255, 255, 255, 255, 255, 0, 0, 0, 10, 0, 0, 0, 20, 0, 0, 0, 30, 0, 0, 0, 1, 0, 255, 255, 255, 255, 0, 0, 0, 10, 255, 255, 255, 255, 255, 255, 255, 255, 255, 255, 255, 255, 255, 255, 255, 255, 255, 255, 255, 255, 255, 255, 255, 255, 0, 0, 0, 10, 255, 255, 255, 255, 255, 255, 255, 255, 0, 0, 0, 2, 0, 255, 255, 255, 255, 0, 0, 0, 20, 0, 0, 0, 30, 255, 255, 255, 255, 255, 255, 255, 255, 255, 255, 255, 255, 255, 255, 255, 255, 255, 255, 255, 255, 0, 0, 0, 20, 0, 0, 0, 30, 255, 255, 255, 255], ⟨4, 3, none, some 0, true⟩⟩) := by rfl

theorem uA3 : runM allocate_new_page ⟨[0, 4, 0, 0, 0, 1, 255, 255, 255, 255, 0, 0, 0, 0, 0, 0, 0, 0, 0, 255, 255, 255, 255, 0, 0, 0, 10, 0, 0, 0, 20, 0, 0, 0, 30, 255, 255, 255, 255, 255, 255, 255, 255, 255, 255, 255, 255, 255, 255, 255, 255, 0, 0, 0, 10, 0, 0, 0, 20, 0, 0, 0, 30, 0, 0, 0, 1, 0, 255, 255, 255, 255, 0, 0, 0, 10, 255, 255, 255, 255, 255, 255, 255, 255, 255, 255, 255, 255, 255, 255, 255, 255, 255, 255, 255, 255, 255, 255, 255, 255, 0, 0, 0, 10, 255, 255, 255, 255, 255, 255, 255, 255, 0, 0, 0, 2, 0, 255, 255, 255, 255, 0, 0, 0, 20, 0, 0, 0, 30, 255, 255, 255, 255, 255, 255, 255, 255, 255, 255, 255, 255, 255, 255, 255, 255, 255, 255, 255, 255, 0, 0, 0, 20, 0, 0, 0, 30, 255, 255, 255, 255], ⟨4, 3, none, some 0, true⟩⟩ = .ok (⟨3, false, none, [], [], [], 4, true⟩, ⟨[0, 4, 0, 0, 0, 1, 255, 255, 255, 255, 0, 0, 0, 0, 0, 0, 0, 0, 0, 255, 255, 255, 255, 0, 0, 0, 10, 0, 0, 0, 20, 0, 0, 0, 30, 255, 255, 255, 255, 255, 255, 255, 255, 255, 255, 255, 255, 255, 255, 255, 255, 0, 0, 0, 10, 0, 0, 0, 20, 0, 0, 0, 30, 0, 0, 0, 1, 0, 255, 255, 255, 255, 0, 0, 0, 10, 255, 255, 255, 255, 255, 255, 255, 255, 255, 255, 255, 255, 255, 255, 255, 255, 255, 255, 255, 255, 255, 255, 255, 255, 0, 0, 0, 10, 255, 255, 255, 255, 255, 255, 255, 255, 0, 0, 0, 2, 0, 255, 255, 255, 255, 0, 0, 0, 20, 0, 0, 0, 30, 255, 255, 255, 255, 255, 255, 255, 255, 255, 255, 255, 255, 255, 255, 255, 255, 255, 255, 255, 255, 0, 0, 0, 20, 0, 0, 0, 30, 255, 255, 255, 255, 0, 0, 0, 3, 0, 255, 255, 255, 255, 255, 255, 255, 255, 255, 255, 255, 255, 255, 255, 255, 255, 255, 255, 255, 255, 255, 255, 255, 255, 255, 255, 255, 255, 255, 255, 255, 255, 255, 255, 255, 255, 255, 255, 255, 255, 255, 255, 255, 255], ⟨4, 4, none, some 0, true⟩⟩) := by rfl

theorem uA4 : runM (NodePage.insert 20 ⟨3, false, none, [20], [1, 2], [], 4, true⟩ 50 50) ⟨[0, 4, 0, 0, 0, 1, 255, 255, 255, 255, 0, 0, 0, 0, 0, 0, 0, 0, 0, 255, 255, 255, 255, 0, 0, 0, 10, 0, 0, 0, 20, 0, 0, 0, 30, 255, 255, 255, 255, 255, 255, 255, 255, 255, 255, 255, 255, 255, 255, 255, 255, 0, 0, 0, 10, 0, 0, 0, 20, 0, 0, 0, 30, 0, 0, 0, 1, 0, 255, 255, 255, 255, 0, 0, 0, 10, 255, 255, 255, 255, 255, 255, 255, 255, 255, 255, 255, 255, 255, 255, 255, 255, 255, 255, 255, 255, 255, 255, 255, 255, 0, 0, 0, 10, 255, 255, 255, 255, 255, 255, 255, 255, 0, 0, 0, 2, 0, 255, 255, 255, 255, 0, 0, 0, 20, 0, 0, 0, 30, 255, 255, 255, 255, 255, 255, 255, 255, 255, 255, 255, 255, 255, 255, 255, 255, 255, 255, 255, 255, 0, 0, 0, 20, 0, 0, 0, 30, 255, 255, 255, 255, 0, 0, 0, 3, 0, 255, 255, 255, 255, 255, 255, 255, 255, 255, 255, 255, 255, 255, 255, 255, 255, 255, 255, 255, 255, 255, 255, 255, 255, 255, 255, 255, 255, 255, 255, 255, 255, 255, 255, 255, 255, 255, 255, 255, 255, 255, 255, 255, 255], ⟨4, 4, none, some 3, true⟩⟩ = .ok (⟨3, false, none, [20], [1, 2], [], 4, true⟩, ⟨[0, 4, 0, 0, 0, 1, 255, 255, 255, 255, 0, 0, 0, 0, 0, 0, 0, 0, 0, 255, 255, 255, 255, 0, 0, 0, 10, 0, 0, 0, 20, 0, 0, 0, 30, 255, 255, 255, 255, 255, 255, 255, 255, 255, 255, 255, 255, 255, 255, 255, 255, 0, 0, 0, 10, 0, 0, 0, 20, 0, 0, 0, 30, 0, 0, 0, 1, 0, 255, 255, 255, 255, 0, 0, 0, 10, 255, 255, 255, 255, 255, 255, 255, 255, 255, 255, 255, 255, 255, 255, 255, 255, 255, 255, 255, 255, 255, 255, 255, 255, 0, 0, 0, 10, 255, 255, 255, 255, 255, 255, 255, 255, 0, 0, 0, 2, 0, 255, 255, 255, 255, 0, 0, 0, 20, 0, 0, 0, 30, 0, 0, 0, 50, 255, 255, 255, 255, 255, 255, 255, 255, 255, 255, 255, 255, 255, 255, 255, 255, 0, 0, 0, 20, 0, 0, 0, 30, 0, 0, 0, 50, 0, 0, 0, 3, 0, 255, 255, 255, 255, 255, 255, 255, 255, 255, 255, 255, 255, 255, 255, 255, 255, 255, 255, 255, 255, 255, 255, 255, 255, 255, 255, 255, 255, 255, 255, 255, 255, 255, 255, 255, 255, 255, 255, 255, 255, 255, 255, 255, 255], ⟨4, 4, none, some 3, true⟩⟩) := by rfl

theorem uA5 : runM (write_page ⟨3, false, none, [20], [1, 2], [], 4, true⟩) ⟨[0, 4, 0, 0, 0, 1, 255, 255, 255, 255, 0, 0, 0, 0, 0, 0, 0, 0, 0, 255, 255, 255, 255, 0, 0, 0, 10, 0, 0, 0, 20, 0, 0, 0, 30, 255, 255, 255, 255, 255, 255, 255, 255, 255, 255, 255, 255, 255, 255, 255, 255, 0, 0, 0, 10, 0, 0, 0, 20, 0, 0, 0, 30, 0, 0, 0, 1, 0, 255, 255, 255, 255, 0, 0, 0, 10, 255, 255, 255, 255, 255, 255, 255, 255, 255, 255, 255, 255, 255, 255, 255, 255, 255, 255, 255, 255, 255, 255, 255, 255, 0, 0, 0, 10, 255, 255, 255, 255, 255, 255, 255, 255, 0, 0, 0, 2, 0, 255, 255, 255, 255, 0, 0, 0, 20, 0, 0, 0, 30, 0, 0, 0, 50, 255, 255, 255, 255, 255, 255, 255, 255, 255, 255, 255, 255, 255, 255, 255, 255, 0, 0, 0, 20, 0, 0, 0, 30, 0, 0, 0, 50, 0, 0, 0, 3, 0, 255, 255, 255, 255, 255, 255, 255, 255, 255, 255, 255, 255, 255, 255, 255, 255, 255, 255, 255, 255, 255, 255, 255, 255, 255, 255, 255, 255, 255, 255, 255, 255, 255, 255, 255, 255, 255, 255, 255, 255, 255, 255, 255, 255], ⟨4, 4, none, some 3, true⟩⟩ = .ok (⟨3, false, none, [20], [1, 2], [], 4, false⟩, ⟨[0, 4, 0, 0, 0, 1, 255, 255, 255, 255, 0, 0, 0, 0, 0, 0, 0, 0, 0, 255, 255, 255, 255, 0, 0, 0, 10, 0, 0, 0, 20, 0, 0, 0, 30, 255, 255, 255, 255, 255, 255, 255, 255, 255, 255, 255, 255, 255, 255, 255, 255, 0, 0, 0, 10, 0, 0, 0, 20, 0, 0, 0, 30, 0, 0, 0, 1, 0, 255, 255, 255, 255, 0, 0, 0, 10, 255, 255, 255, 255, 255, 255, 255, 255, 255, 255, 255, 255, 255, 255, 255, 255, 255, 255, 255, 255, 255, 255, 255, 255, 0, 0, 0, 10, 255, 255, 255, 255, 255, 255, 255, 255, 0, 0, 0, 2, 0, 255, 255, 255, 255, 0, 0, 0, 20, 0, 0, 0, 30, 0, 0, 0, 50, 255, 255, 255, 255, 255, 255, 255, 255, 255, 255, 255, 255, 255, 255, 255, 255, 0, 0, 0, 20, 0, 0, 0, 30, 0, 0, 0, 50, 0, 0, 0, 3, 0, 255, 255, 255, 255, 0, 0, 0, 20, 255, 255, 255, 255, 255, 255, 255, 255, 0, 0, 0, 1, 0, 0, 0, 2, 255, 255, 255, 255, 255, 255, 255, 255, 255, 255, 255, 255, 255, 255, 255, 255, 255, 255, 255, 255], ⟨4, 4, none, some 3, true⟩⟩) := by rfl

theorem uA6 : runM save_metadata ⟨[0, 4, 0, 0, 0, 1, 255, 255, 255, 255, 0, 0, 0, 0, 0, 0, 0, 0, 0, 255, 255, 255, 255, 0, 0, 0, 10, 0, 0, 0, 20, 0, 0, 0, 30, 255, 255, 255, 255, 255, 255, 255, 255, 255, 255, 255, 255, 255, 255, 255, 255, 0, 0, 0, 10, 0, 0, 0, 20, 0, 0, 0, 30, 0, 0, 0, 1, 0, 255, 255, 255, 255, 0, 0, 0, 10, 255, 255, 255, 255, 255, 255, 255, 255, 255, 255, 255, 255, 255, 255, 255, 255, 255, 255, 255, 255, 255, 255, 255, 255, 0, 0, 0, 10, 255, 255, 255, 255, 255, 255, 255, 255, 0, 0, 0, 2, 0, 255, 255, 255, 255, 0, 0, 0, 20, 0, 0, 0, 30, 0, 0, 0, 50, 255, 255, 255, 255, 255, 255, 255, 255, 255, 255, 255, 255, 255, 255, 255, 255, 0, 0, 0, 20, 0, 0, 0, 30, 0, 0, 0, 50, 0, 0, 0, 3, 0, 255, 255, 255, 255, 0, 0, 0, 20, 255, 255, 255, 255, 255, 255, 255, 255, 0, 0, 0, 1, 0, 0, 0, 2, 255, 255, 255, 255, 255, 255, 255, 255, 255, 255, 255, 255, 255, 255, 255, 255, 255, 255, 255, 255], ⟨4, 4, none, some 3, true⟩⟩ = .ok ((), sA4) := by rfl

theorem step_sA4 : runM (store_insert 20 50 50) sA3 = .ok ((), sA4) := by
  simp [store_insert, runM_bind, runM_pure, runM_modify, runM_tryCatch, exbind_ok,
    uA1, uA2, uA3, uA4, uA5, uA6, NodePage.is_full, NodePage.max_keys, NodePage.touch]


theorem uB1 : runM store_root sA6 = .ok (⟨3, false, none, [20], [1, 2], [], 4, false⟩, sA6) := by rfl

theorem uB2 : runM (read_page 1) sA6 = .ok (⟨1, false, none, [1, 2, 10], [], [1, 2, 10], 4, false⟩, sA6) := by rfl

theorem uB3 : runM (NodePage.split ⟨1, false, none, [1, 2, 10], [], [1, 2, 10], 4, false⟩) sA6 = .ok ((⟨4, false, none, [1], [], [1], 4, false⟩, ⟨5, false, none, [2, 10], [], [2, 10], 4, false⟩, 2), ⟨[0, 4, 0, 0, 0, 4, 255, 255, 255, 255, 0, 0, 0, 3, 0, 0, 0, 0, 0, 255, 255, 255, 255, 0, 0, 0, 10, 0, 0, 0, 20, 0, 0, 0, 30, 255, 255, 255, 255, 255, 255, 255, 255, 255, 255, 255, 255, 255, 255, 255, 255, 0, 0, 0, 10, 0, 0, 0, 20, 0, 0, 0, 30, 0, 0, 0, 1, 0, 255, 255, 255, 255, 0, 0, 0, 1, 0, 0, 0, 2, 0, 0, 0, 10, 255, 255, 255, 255, 255, 255, 255, 255, 255, 255, 255, 255, 255, 255, 255, 255, 0, 0, 0, 1, 0, 0, 0, 2, 0, 0, 0, 10, 0, 0, 0, 2, 0, 255, 255, 255, 255, 0, 0, 0, 20, 0, 0, 0, 30, 0, 0, 0, 50, 255, 255, 255, 255, 255, 255, 255, 255, 255, 255, 255, 255, 255, 255, 255, 255, 0, 0, 0, 20, 0, 0, 0, 30, 0, 0, 0, 50, 0, 0, 0, 3, 0, 255, 255, 255, 255, 0, 0, 0, 20, 255, 255, 255, 255, 255, 255, 255, 255, 0, 0, 0, 1, 0, 0, 0, 2, 255, 255, 255, 255, 255, 255, 255, 255, 255, 255, 255, 255, 255, 255, 255, 255, 255, 255, 255, 255, 0, 0, 0, 4, 0, 255, 255, 255, 255, 0, 0, 0, 1, 255, 255, 255, 255, 255, 255, 255, 255, 255, 255, 255, 255, 255, 255, 255, 255, 255, 255, 255, 255, 255, 255, 255, 255, 0, 0, 0, 1, 255, 255, 255, 255, 255, 255, 255, 255, 0, 0, 0, 5, 0, 255, 255, 255, 255, 0, 0, 0, 2, 0, 0, 0, 10, 255, 255, 255, 255, 255, 255, 255, 255, 255, 255, 255, 255, 255, 255, 255, 255, 255, 255, 255, 255, 0, 0, 0, 2, 0, 0, 0, 10, 255, 255, 255, 255], ⟨4, 6, none, some 3, true⟩⟩) := by rfl

theorem uB4 : runM (read_page 4) ⟨[0, 4, 0, 0, 0, 4, 255, 255, 255, 255, 0, 0, 0, 3, 0, 0, 0, 0, 0, 255, 255, 255, 255, 0, 0, 0, 10, 0, 0, 0, 20, 0, 0, 0, 30, 255, 255, 255, 255, 255, 255, 255, 255, 255, 255, 255, 255, 255, 255, 255, 255, 0, 0, 0, 10, 0, 0, 0, 20, 0, 0, 0, 30, 0, 0, 0, 1, 0, 255, 255, 255, 255, 0, 0, 0, 1, 0, 0, 0, 2, 0, 0, 0, 10, 255, 255, 255, 255, 255, 255, 255, 255, 255, 255, 255, 255, 255, 255, 255, 255, 0, 0, 0, 1, 0, 0, 0, 2, 0, 0, 0, 10, 0, 0, 0, 2, 0, 255, 255, 255, 255, 0, 0, 0, 20, 0, 0, 0, 30, 0, 0, 0, 50, 255, 255, 255, 255, 255, 255, 255, 255, 255, 255, 255, 255, 255, 255, 255, 255, 0, 0, 0, 20, 0, 0, 0, 30, 0, 0, 0, 50, 0, 0, 0, 3, 0, 255, 255, 255, 255, 0, 0, 0, 20, 255, 255, 255, 255, 255, 255, 255, 255, 0, 0, 0, 1, 0, 0, 0, 2, 255, 255, 255, 255, 255, 255, 255, 255, 255, 255, 255, 255, 255, 255, 255, 255, 255, 255, 255, 255, 0, 0, 0, 4, 0, 255, 255, 255, 255, 0, 0, 0, 1, 255, 255, 255, 255, 255, 255, 255, 255, 255, 255, 255, 255, 255, 255, 255, 255, 255, 255, 255, 255, 255, 255, 255, 255, 0, 0, 0, 1, 255, 255, 255, 255, 255, 255, 255, 255, 0, 0, 0, 5, 0, 255, 255, 255, 255, 0, 0, 0, 2, 0, 0, 0, 10, 255, 255, 255, 255, 255, 255, 255, 255, 255, 255, 255, 255, 255, 255, 255, 255, 255, 255, 255, 255, 0, 0, 0, 2, 0, 0, 0, 10, 255, 255, 255, 255], ⟨4, 6, none, some 3, true⟩⟩ = .ok (⟨4, false, none, [1], [], [1], 4, false⟩, ⟨[0, 4, 0, 0, 0, 4, 255, 255, 255, 255, 0, 0, 0, 3, 0, 0, 0, 0, 0, 255, 255, 255, 255, 0, 0, 0, 10, 0, 0, 0, 20, 0, 0, 0, 30, 255, 255, 255, 255, 255, 255, 255, 255, 255, 255, 255, 255, 255, 255, 255, 255, 0, 0, 0, 10, 0, 0, 0, 20, 0, 0, 0, 30, 0, 0, 0, 1, 0, 255, 255, 255, 255, 0, 0, 0, 1, 0, 0, 0, 2, 0, 0, 0, 10, 255, 255, 255, 255, 255, 255, 255, 255, 255, 255, 255, 255, 255, 255, 255, 255, 0, 0, 0, 1, 0, 0, 0, 2, 0, 0, 0, 10, 0, 0, 0, 2, 0, 255, 255, 255, 255, 0, 0, 0, 20, 0, 0, 0, 30, 0, 0, 0, 50, 255, 255, 255, 255, 255, 255, 255, 255, 255, 255, 255, 255, 255, 255, 255, 255, 0, 0, 0, 20, 0, 0, 0, 30, 0, 0, 0, 50, 0, 0, 0, 3, 0, 255, 255, 255, 255, 0, 0, 0, 20, 255, 255, 255, 255, 255, 255, 255, 255, 0, 0, 0, 1, 0, 0, 0, 2, 255, 255, 255, 255, 255, 255, 255, 255, 255, 255, 255, 255, 255, 255, 255, 255, 255, 255, 255, 255, 0, 0, 0, 4, 0, 255, 255, 255, 255, 0, 0, 0, 1, 255, 255, 255, 255, 255, 255, 255, 255, 255, 255, 255, 255, 255, 255, 255, 255, 255, 255, 255, 255, 255, 255, 255, 255, 0, 0, 0, 1, 255, 255, 255, 255, 255, 255, 255, 255, 0, 0, 0, 5, 0, 255, 255, 255, 255, 0, 0, 0, 2, 0, 0, 0, 10, 255, 255, 255, 255, 255, 255, 255, 255, 255, 255, 255, 255, 255, 255, 255, 255, 255, 255, 255, 255, 0, 0, 0, 2, 0, 0, 0, 10, 255, 255, 255, 255], ⟨4, 6, none, some 3, true⟩⟩) := by rfl

theorem uB5 : runM (NodePage.insert 19 ⟨4, false, none, [1], [], [1], 4, false⟩ 3 3) ⟨[0, 4, 0, 0, 0, 4, 255, 255, 255, 255, 0, 0, 0, 3, 0, 0, 0, 0, 0, 255, 255, 255, 255, 0, 0, 0, 10, 0, 0, 0, 20, 0, 0, 0, 30, 255, 255, 255, 255, 255, 255, 255, 255, 255, 255, 255, 255, 255, 255, 255, 255, 0, 0, 0, 10, 0, 0, 0, 20, 0, 0, 0, 30, 0, 0, 0, 1, 0, 255, 255, 255, 255, 0, 0, 0, 1, 0, 0, 0, 2, 0, 0, 0, 10, 255, 255, 255, 255, 255, 255, 255, 255, 255, 255, 255, 255, 255, 255, 255, 255, 0, 0, 0, 1, 0, 0, 0, 2, 0, 0, 0, 10, 0, 0, 0, 2, 0, 255, 255, 255, 255, 0, 0, 0, 20, 0, 0, 0, 30, 0, 0, 0, 50, 255, 255, 255, 255, 255, 255, 255, 255, 255, 255, 255, 255, 255, 255, 255, 255, 0, 0, 0, 20, 0, 0, 0, 30, 0, 0, 0, 50, 0, 0, 0, 3, 0, 255, 255, 255, 255, 0, 0, 0, 20, 255, 255, 255, 255, 255, 255, 255, 255, 0, 0, 0, 1, 0, 0, 0, 2, 255, 255, 255, 255, 255, 255, 255, 255, 255, 255, 255, 255, 255, 255, 255, 255, 255, 255, 255, 255, 0, 0, 0, 4, 0, 255, 255, 255, 255, 0, 0, 0, 1, 255, 255, 255, 255, 255, 255, 255, 255, 255, 255, 255, 255, 255, 255, 255, 255, 255, 255, 255, 255, 255, 255, 255, 255, 0, 0, 0, 1, 255, 255, 255, 255, 255, 255, 255, 255, 0, 0, 0, 5, 0, 255, 255, 255, 255, 0, 0, 0, 2, 0, 0, 0, 10, 255, 255, 255, 255, 255, 255, 255, 255, 255, 255, 255, 255, 255, 255, 255, 255, 255, 255, 255, 255, 0, 0, 0, 2, 0, 0, 0, 10, 255, 255, 255, 255], ⟨4, 6, none, some 3, true⟩⟩ = .ok (⟨4, false, none, [1, 3], [], [1, 3], 4, true⟩, ⟨[0, 4, 0, 0, 0, 4, 255, 255, 255, 255, 0, 0, 0, 3, 0, 0, 0, 0, 0, 255, 255, 255, 255, 0, 0, 0, 10, 0, 0, 0, 20, 0, 0, 0, 30, 255, 255, 255, 255, 255, 255, 255, 255, 255, 255, 255, 255, 255, 255, 255, 255, 0, 0, 0, 10, 0, 0, 0, 20, 0, 0, 0, 30, 0, 0, 0, 1, 0, 255, 255, 255, 255, 0, 0, 0, 1, 0, 0, 0, 2, 0, 0, 0, 10, 255, 255, 255, 255, 255, 255, 255, 255, 255, 255, 255, 255, 255, 255, 255, 255, 0, 0, 0, 1, 0, 0, 0, 2, 0, 0, 0, 10, 0, 0, 0, 2, 0, 255, 255, 255, 255, 0, 0, 0, 20, 0, 0, 0, 30, 0, 0, 0, 50, 255, 255, 255, 255, 255, 255, 255, 255, 255, 255, 255, 255, 255, 255, 255, 255, 0, 0, 0, 20, 0, 0, 0, 30, 0, 0, 0, 50, 0, 0, 0, 3, 0, 255, 255, 255, 255, 0, 0, 0, 20, 255, 255, 255, 255, 255, 255, 255, 255, 0, 0, 0, 1, 0, 0, 0, 2, 255, 255, 255, 255, 255, 255, 255, 255, 255, 255, 255, 255, 255, 255, 255, 255, 255, 255, 255, 255, 0, 0, 0, 4, 0, 255, 255, 255, 255, 0, 0, 0, 1, 255, 255, 255, 255, 255, 255, 255, 255, 255, 255, 255, 255, 255, 255, 255, 255, 255, 255, 255, 255, 255, 255, 255, 255, 0, 0, 0, 1, 255, 255, 255, 255, 255, 255, 255, 255, 0, 0, 0, 5, 0, 255, 255, 255, 255, 0, 0, 0, 2, 0, 0, 0, 10, 255, 255, 255, 255, 255, 255, 255, 255, 255, 255, 255, 255, 255, 255, 255, 255, 255, 255, 255, 255, 0, 0, 0, 2, 0, 0, 0, 10, 255, 255, 255, 255], ⟨4, 6, none, some 3, true⟩⟩) := by rfl

theorem uB6 : runM (write_page ⟨4, false, none, [1, 3], [], [1, 3], 4, true⟩) ⟨[0, 4, 0, 0, 0, 4, 255, 255, 255, 255, 0, 0, 0, 3, 0, 0, 0, 0, 0, 255, 255, 255, 255, 0, 0, 0, 10, 0, 0, 0, 20, 0, 0, 0, 30, 255, 255, 255, 255, 255, 255, 255, 255, 255, 255, 255, 255, 255, 255, 255, 255, 0, 0, 0, 10, 0, 0, 0, 20, 0, 0, 0, 30, 0, 0, 0, 1, 0, 255, 255, 255, 255, 0, 0, 0, 1, 0, 0, 0, 2, 0, 0, 0, 10, 255, 255, 255, 255, 255, 255, 255, 255, 255, 255, 255, 255, 255, 255, 255, 255, 0, 0, 0, 1, 0, 0, 0, 2, 0, 0, 0, 10, 0, 0, 0, 2, 0, 255, 255, 255, 255, 0, 0, 0, 20, 0, 0, 0, 30, 0, 0, 0, 50, 255, 255, 255, 255, 255, 255, 255, 255, 255, 255, 255, 255, 255, 255, 255, 255, 0, 0, 0, 20, 0, 0, 0, 30, 0, 0, 0, 50, 0, 0, 0, 3, 0, 255, 255, 255, 255, 0, 0, 0, 20, 255, 255, 255, 255, 255, 255, 255, 255, 0, 0, 0, 1, 0, 0, 0, 2, 255, 255, 255, 255, 255, 255, 255, 255, 255, 255, 255, 255, 255, 255, 255, 255, 255, 255, 255, 255, 0, 0, 0, 4, 0, 255, 255, 255, 255, 0, 0, 0, 1, 255, 255, 255, 255, 255, 255, 255, 255, 255, 255, 255, 255, 255, 255, 255, 255, 255, 255, 255, 255, 255, 255, 255, 255, 0, 0, 0, 1, 255, 255, 255, 255, 255, 255, 255, 255, 0, 0, 0, 5, 0, 255, 255, 255, 255, 0, 0, 0, 2, 0, 0, 0, 10, 255, 255, 255, 255, 255, 255, 255, 255, 255, 255, 255, 255, 255, 255, 255, 255, 255, 255, 255, 255, 0, 0, 0, 2, 0, 0, 0, 10, 255, 255, 255, 255], ⟨4, 6, none, some 3, true⟩⟩ = .ok (⟨4, false, none, [1, 3], [], [1, 3], 4, false⟩, ⟨[0, 4, 0, 0, 0, 4, 255, 255, 255, 255, 0, 0, 0, 3, 0, 0, 0, 0, 0, 255, 255, 255, 255, 0, 0, 0, 10, 0, 0, 0, 20, 0, 0, 0, 30, 255, 255, 255, 255, 255, 255, 255, 255, 255, 255, 255, 255, 255, 255, 255, 255, 0, 0, 0, 10, 0, 0, 0, 20, 0, 0, 0, 30, 0, 0, 0, 1, 0, 255, 255, 255, 255, 0, 0, 0, 1, 0, 0, 0, 2, 0, 0, 0, 10, 255, 255, 255, 255, 255, 255, 255, 255, 255, 255, 255, 255, 255, 255, 255, 255, 0, 0, 0, 1, 0, 0, 0, 2, 0, 0, 0, 10, 0, 0, 0, 2, 0, 255, 255, 255, 255, 0, 0, 0, 20, 0, 0, 0, 30, 0, 0, 0, 50, 255, 255, 255, 255, 255, 255, 255, 255, 255, 255, 255, 255, 255, 255, 255, 255, 0, 0, 0, 20, 0, 0, 0, 30, 0, 0, 0, 50, 0, 0, 0, 3, 0, 255, 255, 255, 255, 0, 0, 0, 20, 255, 255, 255, 255, 255, 255, 255, 255, 0, 0, 0, 1, 0, 0, 0, 2, 255, 255, 255, 255, 255, 255, 255, 255, 255, 255, 255, 255, 255, 255, 255, 255, 255, 255, 255, 255, 0, 0, 0, 4, 0, 255, 255, 255, 255, 0, 0, 0, 1, 0, 0, 0, 3, 255, 255, 255, 255, 255, 255, 255, 255, 255, 255, 255, 255, 255, 255, 255, 255, 255, 255, 255, 255, 0, 0, 0, 1, 0, 0, 0, 3, 255, 255, 255, 255, 0, 0, 0, 5, 0, 255, 255, 255, 255, 0, 0, 0, 2, 0, 0, 0, 10, 255, 255, 255, 255, 255, 255, 255, 255, 255, 255, 255, 255, 255, 255, 255, 255, 255, 255, 255, 255, 0, 0, 0, 2, 0, 0, 0, 10, 255, 255, 255, 255], ⟨4, 6, none, some 3, true⟩⟩) := by rfl

theorem uB7 : runM (write_page ⟨3, false, none, [2, 20], [4, 5, 1, 2], [], 4, true⟩) ⟨[0, 4, 0, 0, 0, 4, 255, 255, 255, 255, 0, 0, 0, 3, 0, 0, 0, 0, 0, 255, 255, 255, 255, 0, 0, 0, 10, 0, 0, 0, 20, 0, 0, 0, 30, 255, 255, 255, 255, 255, 255, 255, 255, 255, 255, 255, 255, 255, 255, 255, 255, 0, 0, 0, 10, 0, 0, 0, 20, 0, 0, 0, 30, 0, 0, 0, 1, 0, 255, 255, 255, 255, 0, 0, 0, 1, 0, 0, 0, 2, 0, 0, 0, 10, 255, 255, 255, 255, 255, 255, 255, 255, 255, 255, 255, 255, 255, 255, 255, 255, 0, 0, 0, 1, 0, 0, 0, 2, 0, 0, 0, 10, 0, 0, 0, 2, 0, 255, 255, 255, 255, 0, 0, 0, 20, 0, 0, 0, 30, 0, 0, 0, 50, 255, 255, 255, 255, 255, 255, 255, 255, 255, 255, 255, 255, 255, 255, 255, 255, 0, 0, 0, 20, 0, 0, 0, 30, 0, 0, 0, 50, 0, 0, 0, 3, 0, 255, 255, 255, 255, 0, 0, 0, 20, 255, 255, 255, 255, 255, 255, 255, 255, 0, 0, 0, 1, 0, 0, 0, 2, 255, 255, 255, 255, 255, 255, 255, 255, 255, 255, 255, 255, 255, 255, 255, 255, 255, 255, 255, 255, 0, 0, 0, 4, 0, 255, 255, 255, 255, 0, 0, 0, 1, 0, 0, 0, 3, 255, 255, 255, 255, 255, 255, 255, 255, 255, 255, 255, 255, 255, 255, 255, 255, 255, 255, 255, 255, 0, 0, 0, 1, 0, 0, 0, 3, 255, 255, 255, 255, 0, 0, 0, 5, 0, 255, 255, 255, 255, 0, 0, 0, 2, 0, 0, 0, 10, 255, 255, 255, 255, 255, 255, 255, 255, 255, 255, 255, 255, 255, 255, 255, 255, 255, 255, 255, 255, 0, 0, 0, 2, 0, 0, 0, 10, 255, 255, 255, 255], ⟨4, 6, none, some 3, true⟩⟩ = .ok (⟨3, false, none, [2, 20], [4, 5, 1, 2], [], 4, false⟩, ⟨[0, 4, 0, 0, 0, 4, 255, 255, 255, 255, 0, 0, 0, 3, 0, 0, 0, 0, 0, 255, 255, 255, 255, 0, 0, 0, 10, 0, 0, 0, 20, 0, 0, 0, 30, 255, 255, 255, 255, 255, 255, 255, 255, 255, 255, 255, 255, 255, 255, 255, 255, 0, 0, 0, 10, 0, 0, 0, 20, 0, 0, 0, 30, 0, 0, 0, 1, 0, 255, 255, 255, 255, 0, 0, 0, 1, 0, 0, 0, 2, 0, 0, 0, 10, 255, 255, 255, 255, 255, 255, 255, 255, 255, 255, 255, 255, 255, 255, 255, 255, 0, 0, 0, 1, 0, 0, 0, 2, 0, 0, 0, 10, 0, 0, 0, 2, 0, 255, 255, 255, 255, 0, 0, 0, 20, 0, 0, 0, 30, 0, 0, 0, 50, 255, 255, 255, 255, 255, 255, 255, 255, 255, 255, 255, 255, 255, 255, 255, 255, 0, 0, 0, 20, 0, 0, 0, 30, 0, 0, 0, 50, 0, 0, 0, 3, 0, 255, 255, 255, 255, 0, 0, 0, 2, 0, 0, 0, 20, 255, 255, 255, 255, 0, 0, 0, 4, 0, 0, 0, 5, 0, 0, 0, 1, 0, 0, 0, 2, 255, 255, 255, 255, 255, 255, 255, 255, 255, 255, 255, 255, 0, 0, 0, 4, 0, 255, 255, 255, 255, 0, 0, 0, 1, 0, 0, 0, 3, 255, 255, 255, 255, 255, 255, 255, 255, 255, 255, 255, 255, 255, 255, 255, 255, 255, 255, 255, 255, 0, 0, 0, 1, 0, 0, 0, 3, 255, 255, 255, 255, 0, 0, 0, 5, 0, 255, 255, 255, 255, 0, 0, 0, 2, 0, 0, 0, 10, 255, 255, 255, 255, 255, 255, 255, 255, 255, 255, 255, 255, 255, 255, 255, 255, 255, 255, 255, 255, 0, 0, 0, 2, 0, 0, 0, 10, 255, 255, 255, 255], ⟨4, 6, none, some 3, true⟩⟩) := by rfl

theorem uB8 : runM save_metadata ⟨[0, 4, 0, 0, 0, 4, 255, 255, 255, 255, 0, 0, 0, 3, 0, 0, 0, 0, 0, 255, 255, 255, 255, 0, 0, 0, 10, 0, 0, 0, 20, 0, 0, 0, 30, 255, 255, 255, 255, 255, 255, 255, 255, 255, 255, 255, 255, 255, 255, 255, 255, 0, 0, 0, 10, 0, 0, 0, 20, 0, 0, 0, 30, 0, 0, 0, 1, 0, 255, 255, 255, 255, 0, 0, 0, 1, 0, 0, 0, 2, 0, 0, 0, 10, 255, 255, 255, 255, 255, 255, 255, 255, 255, 255, 255, 255, 255, 255, 255, 255, 0, 0, 0, 1, 0, 0, 0, 2, 0, 0, 0, 10, 0, 0, 0, 2, 0, 255, 255, 255, 255, 0, 0, 0, 20, 0, 0, 0, 30, 0, 0, 0, 50, 255, 255, 255, 255, 255, 255, 255, 255, 255, 255, 255, 255, 255, 255, 255, 255, 0, 0, 0, 20, 0, 0, 0, 30, 0, 0, 0, 50, 0, 0, 0, 3, 0, 255, 255, 255, 255, 0, 0, 0, 2, 0, 0, 0, 20, 255, 255, 255, 255, 0, 0, 0, 4, 0, 0, 0, 5, 0, 0, 0, 1, 0, 0, 0, 2, 255, 255, 255, 255, 255, 255, 255, 255, 255, 255, 255, 255, 0, 0, 0, 4, 0, 255, 255, 255, 255, 0, 0, 0, 1, 0, 0, 0, 3, 255, 255, 255, 255, 255, 255, 255, 255, 255, 255, 255, 255, 255, 255, 255, 255, 255, 255, 255, 255, 0, 0, 0, 1, 0, 0, 0, 3, 255, 255, 255, 255, 0, 0, 0, 5, 0, 255, 255, 255, 255, 0, 0, 0, 2, 0, 0, 0, 10, 255, 255, 255, 255, 255, 255, 255, 255, 255, 255, 255, 255, 255, 255, 255, 255, 255, 255, 255, 255, 0, 0, 0, 2, 0, 0, 0, 10, 255, 255, 255, 255], ⟨4, 6, none, some 3, true⟩⟩ = .ok ((), sA7) := by rfl

theorem gB1 : NodePage.node_index ⟨3, false, none, [20], [1, 2], [], 4, false⟩ 3 = 0 := by rfl

theorem gB2 : [1, 2].get? 0 = some 1 := by rfl

theorem gB3 : [4, 5, 1, 2].get? 0 = some 4 := by rfl

theorem gB4 : [20].insertIdx 0 2 = [2, 20] := by rfl

theorem gB5 : [1, 2].insertIdx 0 5 = [5, 1, 2] := by rfl

theorem gB6 : [5, 1, 2].insertIdx 0 4 = [4, 5, 1, 2] := by rfl

theorem cB1 : NodePage.is_full (⟨3, false, none, [20], [1, 2], [], 4, false⟩) = false := by rfl

theorem cB2 : NodePage.is_leaf (⟨3, false, none, [20], [1, 2], [], 4, false⟩) = false := by rfl

theorem cB3 : NodePage.is_full (⟨1, false, none, [1, 2, 10], [], [1, 2, 10], 4, false⟩) = true := by rfl

theorem cB4 : NodePage.is_leaf (⟨4, false, none, [1], [], [1], 4, false⟩) = true := by rfl

theorem gB7 : NodePage.insert_key_value (⟨4, false, none, [1], [], [1], 4, false⟩) 3 3 = (⟨4, false, none, [1, 3], [], [1, 3], 4, true⟩) := by rfl

theorem step_sA7 : runM (store_insert 20 3 3) sA6 = .ok ((), sA7) := by
  simp only [store_insert, NodePage.insert, NodePage.touch, runM_bind, runM_pure,
    runM_modify, runM_tryCatch, exbind_ok, uB1, uB2, uB3, uB4, uB5, uB6, uB7, uB8,
    gB1, gB2, gB3, gB4, gB5, gB6, gB7, cB1, cB2, cB3, cB4, reduceIte, reduceCtorEq,
    List.length_cons, List.length_nil, List.length_singleton, Nat.reduceAdd,
    Nat.reduceLT, Nat.reduceEqDiff, eq_self_iff_true]


theorem uC1 : runM store_root sA4 = .ok (⟨3, false, none, [20], [1, 2], [], 4, false⟩, sA4) := by rfl

theorem uC2 : runM (read_page 2) sA4 = .ok (⟨2, false, none, [20, 30, 50], [], [20, 30, 50], 4, false⟩, sA4) := by rfl

theorem uC3 : runM (NodePage.split ⟨2, false, none, [20, 30, 50], [], [20, 30, 50], 4, false⟩) sA4 = .ok ((⟨4, false, none, [20], [], [20], 4, false⟩, ⟨5, false, none, [30, 50], [], [30, 50], 4, false⟩, 30), ⟨[0, 4, 0, 0, 0, 4, 255, 255, 255, 255, 0, 0, 0, 3, 0, 0, 0, 0, 0, 255, 255, 255, 255, 0, 0, 0, 10, 0, 0, 0, 20, 0, 0, 0, 30, 255, 255, 255, 255, 255, 255, 255, 255, 255, 255, 255, 255, 255, 255, 255, 255, 0, 0, 0, 10, 0, 0, 0, 20, 0, 0, 0, 30, 0, 0, 0, 1, 0, 255, 255, 255, 255, 0, 0, 0, 10, 255, 255, 255, 255, 255, 255, 255, 255, 255, 255, 255, 255, 255, 255, 255, 255, 255, 255, 255, 255, 255, 255, 255, 255, 0, 0, 0, 10, 255, 255, 255, 255, 255, 255, 255, 255, 0, 0, 0, 2, 0, 255, 255, 255, 255, 0, 0, 0, 20, 0, 0, 0, 30, 0, 0, 0, 50, 255, 255, 255, 255, 255, 255, 255, 255, 255, 255, 255, 255, 255, 255, 255, 255, 0, 0, 0, 20, 0, 0, 0, 30, 0, 0, 0, 50, 0, 0, 0, 3, 0, 255, 255, 255, 255, 0, 0, 0, 20, 255, 255, 255, 255, 255, 255, 255, 255, 0, 0, 0, 1, 0, 0, 0, 2, 255, 255, 255, 255, 255, 255, 255, 255, 255, 255, 255, 255, 255, 255, 255, 255, 255, 255, 255, 255, 0, 0, 0, 4, 0, 255, 255, 255, 255, 0, 0, 0, 20, 255, 255, 255, 255, 255, 255, 255, 255, 255, 255, 255, 255, 255, 255, 255, 255, 255, 255, 255, 255, 255, 255, 255, 255, 0, 0, 0, 20, 255, 255, 255, 255, 255, 255, 255, 255, 0, 0, 0, 5, 0, 255, 255, 255, 255, 0, 0, 0, 30, 0, 0, 0, 50, 255, 255, 255, 255, 255, 255, 255, 255, 255, 255, 255, 255, 255, 255, 255, 255, 255, 255, 255, 255, 0, 0, 0, 30, 0, 0, 0, 50, 255, 255, 255, 255], ⟨4, 6, none, some 3, true⟩⟩) := by rfl

theorem uC4 : runM (read_page 4) ⟨[0, 4, 0, 0, 0, 4, 255, 255, 255, 255, 0, 0, 0, 3, 0, 0, 0, 0, 0, 255, 255, 255, 255, 0, 0, 0, 10, 0, 0, 0, 20, 0, 0, 0, 30, 255, 255, 255, 255, 255, 255, 255, 255, 255, 255, 255, 255, 255, 255, 255, 255, 0, 0, 0, 10, 0, 0, 0, 20, 0, 0, 0, 30, 0, 0, 0, 1, 0, 255, 255, 255, 255, 0, 0, 0, 10, 255, 255, 255, 255, 255, 255, 255, 255, 255, 255, 255, 255, 255, 255, 255, 255, 255, 255, 255, 255, 255, 255, 255, 255, 0, 0, 0, 10, 255, 255, 255, 255, 255, 255, 255, 255, 0, 0, 0, 2, 0, 255, 255, 255, 255, 0, 0, 0, 20, 0, 0, 0, 30, 0, 0, 0, 50, 255, 255, 255, 255, 255, 255, 255, 255, 255, 255, 255, 255, 255, 255, 255, 255, 0, 0, 0, 20, 0, 0, 0, 30, 0, 0, 0, 50, 0, 0, 0, 3, 0, 255, 255, 255, 255, 0, 0, 0, 20, 255, 255, 255, 255, 255, 255, 255, 255, 0, 0, 0, 1, 0, 0, 0, 2, 255, 255, 255, 255, 255, 255, 255, 255, 255, 255, 255, 255, 255, 255, 255, 255, 255, 255, 255, 255, 0, 0, 0, 4, 0, 255, 255, 255, 255, 0, 0, 0, 20, 255, 255, 255, 255, 255, 255, 255, 255, 255, 255, 255, 255, 255, 255, 255, 255, 255, 255, 255, 255, 255, 255, 255, 255, 0, 0, 0, 20, 255, 255, 255, 255, 255, 255, 255, 255, 0, 0, 0, 5, 0, 255, 255, 255, 255, 0, 0, 0, 30, 0, 0, 0, 50, 255, 255, 255, 255, 255, 255, 255, 255, 255, 255, 255, 255, 255, 255, 255, 255, 255, 255, 255, 255, 0, 0, 0, 30, 0, 0, 0, 50, 255, 255, 255, 255], ⟨4, 6, none, some 3, true⟩⟩ = .ok (⟨4, false, none, [20], [], [20], 4, false⟩, ⟨[0, 4, 0, 0, 0, 4, 255, 255, 255, 255, 0, 0, 0, 3, 0, 0, 0, 0, 0, 255, 255, 255, 255, 0, 0, 0, 10, 0, 0, 0, 20, 0, 0, 0, 30, 255, 255, 255, 255, 255, 255, 255, 255, 255, 255, 255, 255, 255, 255, 255, 255, 0, 0, 0, 10, 0, 0, 0, 20, 0, 0, 0, 30, 0, 0, 0, 1, 0, 255, 255, 255, 255, 0, 0, 0, 10, 255, 255, 255, 255, 255, 255, 255, 255, 255, 255, 255, 255, 255, 255, 255, 255, 255, 255, 255, 255, 255, 255, 255, 255, 0, 0, 0, 10, 255, 255, 255, 255, 255, 255, 255, 255, 0, 0, 0, 2, 0, 255, 255, 255, 255, 0, 0, 0, 20, 0, 0, 0, 30, 0, 0, 0, 50, 255, 255, 255, 255, 255, 255, 255, 255, 255, 255, 255, 255, 255, 255, 255, 255, 0, 0, 0, 20, 0, 0, 0, 30, 0, 0, 0, 50, 0, 0, 0, 3, 0, 255, 255, 255, 255, 0, 0, 0, 20, 255, 255, 255, 255, 255, 255, 255, 255, 0, 0, 0, 1, 0, 0, 0, 2, 255, 255, 255, 255, 255, 255, 255, 255, 255, 255, 255, 255, 255, 255, 255, 255, 255, 255, 255, 255, 0, 0, 0, 4, 0, 255, 255, 255, 255, 0, 0, 0, 20, 255, 255, 255, 255, 255, 255, 255, 255, 255, 255, 255, 255, 255, 255, 255, 255, 255, 255, 255, 255, 255, 255, 255, 255, 0, 0, 0, 20, 255, 255, 255, 255, 255, 255, 255, 255, 0, 0, 0, 5, 0, 255, 255, 255, 255, 0, 0, 0, 30, 0, 0, 0, 50, 255, 255, 255, 255, 255, 255, 255, 255, 255, 255, 255, 255, 255, 255, 255, 255, 255, 255, 255, 255, 0, 0, 0, 30, 0, 0, 0, 50, 255, 255, 255, 255], ⟨4, 6, none, some 3, true⟩⟩) := by rfl

theorem uC5 : runM (write_page ⟨4, false, none, [20, 30], [], [20, 999], 4, true⟩) ⟨[0, 4, 0, 0, 0, 4, 255, 255, 255, 255, 0, 0, 0, 3, 0, 0, 0, 0, 0, 255, 255, 255, 255, 0, 0, 0, 10, 0, 0, 0, 20, 0, 0, 0, 30, 255, 255, 255, 255, 255, 255, 255, 255, 255, 255, 255, 255, 255, 255, 255, 255, 0, 0, 0, 10, 0, 0, 0, 20, 0, 0, 0, 30, 0, 0, 0, 1, 0, 255, 255, 255, 255, 0, 0, 0, 10, 255, 255, 255, 255, 255, 255, 255, 255, 255, 255, 255, 255, 255, 255, 255, 255, 255, 255, 255, 255, 255, 255, 255, 255, 0, 0, 0, 10, 255, 255, 255, 255, 255, 255, 255, 255, 0, 0, 0, 2, 0, 255, 255, 255, 255, 0, 0, 0, 20, 0, 0, 0, 30, 0, 0, 0, 50, 255, 255, 255, 255, 255, 255, 255, 255, 255, 255, 255, 255, 255, 255, 255, 255, 0, 0, 0, 20, 0, 0, 0, 30, 0, 0, 0, 50, 0, 0, 0, 3, 0, 255, 255, 255, 255, 0, 0, 0, 20, 255, 255, 255, 255, 255, 255, 255, 255, 0, 0, 0, 1, 0, 0, 0, 2, 255, 255, 255, 255, 255, 255, 255, 255, 255, 255, 255, 255, 255, 255, 255, 255, 255, 255, 255, 255, 0, 0, 0, 4, 0, 255, 255, 255, 255, 0, 0, 0, 20, 255, 255, 255, 255, 255, 255, 255, 255, 255, 255, 255, 255, 255, 255, 255, 255, 255, 255, 255, 255, 255, 255, 255, 255, 0, 0, 0, 20, 255, 255, 255, 255, 255, 255, 255, 255, 0, 0, 0, 5, 0, 255, 255, 255, 255, 0, 0, 0, 30, 0, 0, 0, 50, 255, 255, 255, 255, 255, 255, 255, 255, 255, 255, 255, 255, 255, 255, 255, 255, 255, 255, 255, 255, 0, 0, 0, 30, 0, 0, 0, 50, 255, 255, 255, 255], ⟨4, 6, none, some 3, true⟩⟩ = .ok (⟨4, false, none, [20, 30], [], [20, 999], 4, false⟩, ⟨[0, 4, 0, 0, 0, 4, 255, 255, 255, 255, 0, 0, 0, 3, 0, 0, 0, 0, 0, 255, 255, 255, 255, 0, 0, 0, 10, 0, 0, 0, 20, 0, 0, 0, 30, 255, 255, 255, 255, 255, 255, 255, 255, 255, 255, 255, 255, 255, 255, 255, 255, 0, 0, 0, 10, 0, 0, 0, 20, 0, 0, 0, 30, 0, 0, 0, 1, 0, 255, 255, 255, 255, 0, 0, 0, 10, 255, 255, 255, 255, 255, 255, 255, 255, 255, 255, 255, 255, 255, 255, 255, 255, 255, 255, 255, 255, 255, 255, 255, 255, 0, 0, 0, 10, 255, 255, 255, 255, 255, 255, 255, 255, 0, 0, 0, 2, 0, 255, 255, 255, 255, 0, 0, 0, 20, 0, 0, 0, 30, 0, 0, 0, 50, 255, 255, 255, 255, 255, 255, 255, 255, 255, 255, 255, 255, 255, 255, 255, 255, 0, 0, 0, 20, 0, 0, 0, 30, 0, 0, 0, 50, 0, 0, 0, 3, 0, 255, 255, 255, 255, 0, 0, 0, 20, 255, 255, 255, 255, 255, 255, 255, 255, 0, 0, 0, 1, 0, 0, 0, 2, 255, 255, 255, 255, 255, 255, 255, 255, 255, 255, 255, 255, 255, 255, 255, 255, 255, 255, 255, 255, 0, 0, 0, 4, 0, 255, 255, 255, 255, 0, 0, 0, 20, 0, 0, 0, 30, 255, 255, 255, 255, 255, 255, 255, 255, 255, 255, 255, 255, 255, 255, 255, 255, 255, 255, 255, 255, 0, 0, 0, 20, 0, 0, 3, 231, 255, 255, 255, 255, 0, 0, 0, 5, 0, 255, 255, 255, 255, 0, 0, 0, 30, 0, 0, 0, 50, 255, 255, 255, 255, 255, 255, 255, 255, 255, 255, 255, 255, 255, 255, 255, 255, 255, 255, 255, 255, 0, 0, 0, 30, 0, 0, 0, 50, 255, 255, 255, 255], ⟨4, 6, none, some 3, true⟩⟩) := by rfl

theorem uC6 : runM (write_page ⟨3, false, none, [20, 30], [1, 4, 5], [], 4, true⟩) ⟨[0, 4, 0, 0, 0, 4, 255, 255, 255, 255, 0, 0, 0, 3, 0, 0, 0, 0, 0, 255, 255, 255, 255, 0, 0, 0, 10, 0, 0, 0, 20, 0, 0, 0, 30, 255, 255, 255, 255, 255, 255, 255, 255, 255, 255, 255, 255, 255, 255, 255, 255, 0, 0, 0, 10, 0, 0, 0, 20, 0, 0, 0, 30, 0, 0, 0, 1, 0, 255, 255, 255, 255, 0, 0, 0, 10, 255, 255, 255, 255, 255, 255, 255, 255, 255, 255, 255, 255, 255, 255, 255, 255, 255, 255, 255, 255, 255, 255, 255, 255, 0, 0, 0, 10, 255, 255, 255, 255, 255, 255, 255, 255, 0, 0, 0, 2, 0, 255, 255, 255, 255, 0, 0, 0, 20, 0, 0, 0, 30, 0, 0, 0, 50, 255, 255, 255, 255, 255, 255, 255, 255, 255, 255, 255, 255, 255, 255, 255, 255, 0, 0, 0, 20, 0, 0, 0, 30, 0, 0, 0, 50, 0, 0, 0, 3, 0, 255, 255, 255, 255, 0, 0, 0, 20, 255, 255, 255, 255, 255, 255, 255, 255, 0, 0, 0, 1, 0, 0, 0, 2, 255, 255, 255, 255, 255, 255, 255, 255, 255, 255, 255, 255, 255, 255, 255, 255, 255, 255, 255, 255, 0, 0, 0, 4, 0, 255, 255, 255, 255, 0, 0, 0, 20, 0, 0, 0, 30, 255, 255, 255, 255, 255, 255, 255, 255, 255, 255, 255, 255, 255, 255, 255, 255, 255, 255, 255, 255, 0, 0, 0, 20, 0, 0, 3, 231, 255, 255, 255, 255, 0, 0, 0, 5, 0, 255, 255, 255, 255, 0, 0, 0, 30, 0, 0, 0, 50, 255, 255, 255, 255, 255, 255, 255, 255, 255, 255, 255, 255, 255, 255, 255, 255, 255, 255, 255, 255, 0, 0, 0, 30, 0, 0, 0, 50, 255, 255, 255, 255], ⟨4, 6, none, some 3, true⟩⟩ = .ok (⟨3, false, none, [20, 30], [1, 4, 5], [], 4, false⟩, ⟨[0, 4, 0, 0, 0, 4, 255, 255, 255, 255, 0, 0, 0, 3, 0, 0, 0, 0, 0, 255, 255, 255, 255, 0, 0, 0, 10, 0, 0, 0, 20, 0, 0, 0, 30, 255, 255, 255, 255, 255, 255, 255, 255, 255, 255, 255, 255, 255, 255, 255, 255, 0, 0, 0, 10, 0, 0, 0, 20, 0, 0, 0, 30, 0, 0, 0, 1, 0, 255, 255, 255, 255, 0, 0, 0, 10, 255, 255, 255, 255, 255, 255, 255, 255, 255, 255, 255, 255, 255, 255, 255, 255, 255, 255, 255, 255, 255, 255, 255, 255, 0, 0, 0, 10, 255, 255, 255, 255, 255, 255, 255, 255, 0, 0, 0, 2, 0, 255, 255, 255, 255, 0, 0, 0, 20, 0, 0, 0, 30, 0, 0, 0, 50, 255, 255, 255, 255, 255, 255, 255, 255, 255, 255, 255, 255, 255, 255, 255, 255, 0, 0, 0, 20, 0, 0, 0, 30, 0, 0, 0, 50, 0, 0, 0, 3, 0, 255, 255, 255, 255, 0, 0, 0, 20, 0, 0, 0, 30, 255, 255, 255, 255, 0, 0, 0, 1, 0, 0, 0, 4, 0, 0, 0, 5, 255, 255, 255, 255, 255, 255, 255, 255, 255, 255, 255, 255, 255, 255, 255, 255, 0, 0, 0, 4, 0, 255, 255, 255, 255, 0, 0, 0, 20, 0, 0, 0, 30, 255, 255, 255, 255, 255, 255, 255, 255, 255, 255, 255, 255, 255, 255, 255, 255, 255, 255, 255, 255, 0, 0, 0, 20, 0, 0, 3, 231, 255, 255, 255, 255, 0, 0, 0, 5, 0, 255, 255, 255, 255, 0, 0, 0, 30, 0, 0, 0, 50, 255, 255, 255, 255, 255, 255, 255, 255, 255, 255, 255, 255, 255, 255, 255, 255, 255, 255, 255, 255, 0, 0, 0, 30, 0, 0, 0, 50, 255, 255, 255, 255], ⟨4, 6, none, some 3, true⟩⟩) := by rfl

theorem uC7 : runM save_metadata ⟨[0, 4, 0, 0, 0, 4, 255, 255, 255, 255, 0, 0, 0, 3, 0, 0, 0, 0, 0, 255, 255, 255, 255, 0, 0, 0, 10, 0, 0, 0, 20, 0, 0, 0, 30, 255, 255, 255, 255, 255, 255, 255, 255, 255, 255, 255, 255, 255, 255, 255, 255, 0, 0, 0, 10, 0, 0, 0, 20, 0, 0, 0, 30, 0, 0, 0, 1, 0, 255, 255, 255, 255, 0, 0, 0, 10, 255, 255, 255, 255, 255, 255, 255, 255, 255, 255, 255, 255, 255, 255, 255, 255, 255, 255, 255, 255, 255, 255, 255, 255, 0, 0, 0, 10, 255, 255, 255, 255, 255, 255, 255, 255, 0, 0, 0, 2, 0, 255, 255, 255, 255, 0, 0, 0, 20, 0, 0, 0, 30, 0, 0, 0, 50, 255, 255, 255, 255, 255, 255, 255, 255, 255, 255, 255, 255, 255, 255, 255, 255, 0, 0, 0, 20, 0, 0, 0, 30, 0, 0, 0, 50, 0, 0, 0, 3, 0, 255, 255, 255, 255, 0, 0, 0, 20, 0, 0, 0, 30, 255, 255, 255, 255, 0, 0, 0, 1, 0, 0, 0, 4, 0, 0, 0, 5, 255, 255, 255, 255, 255, 255, 255, 255, 255, 255, 255, 255, 255, 255, 255, 255, 0, 0, 0, 4, 0, 255, 255, 255, 255, 0, 0, 0, 20, 0, 0, 0, 30, 255, 255, 255, 255, 255, 255, 255, 255, 255, 255, 255, 255, 255, 255, 255, 255, 255, 255, 255, 255, 0, 0, 0, 20, 0, 0, 3, 231, 255, 255, 255, 255, 0, 0, 0, 5, 0, 255, 255, 255, 255, 0, 0, 0, 30, 0, 0, 0, 50, 255, 255, 255, 255, 255, 255, 255, 255, 255, 255, 255, 255, 255, 255, 255, 255, 255, 255, 255, 255, 0, 0, 0, 30, 0, 0, 0, 50, 255, 255, 255, 255], ⟨4, 6, none, some 3, true⟩⟩ = .ok ((), dupLit) := by rfl

theorem cC3 : NodePage.is_full (⟨2, false, none, [20, 30, 50], [], [20, 30, 50], 4, false⟩) = true := by rfl

theorem cC4 : NodePage.is_leaf (⟨4, false, none, [20], [], [20], 4, false⟩) = true := by rfl

theorem gC1 : NodePage.node_index (⟨3, false, none, [20], [1, 2], [], 4, false⟩) 30 = 1 := by rfl

theorem gC2 : [1, 2].get? 1 = some 2 := by rfl

theorem gC4 : [1, 2].set 1 4 = [1, 4] := by rfl

theorem gC5 : [1, 4, 5].get? 1 = some 4 := by rfl

theorem gC6 : NodePage.insert_key_value (⟨4, false, none, [20], [], [20], 4, false⟩) 30 999 = (⟨4, false, none, [20, 30], [], [20, 999], 4, true⟩) := by rfl

theorem gC7 : [20] ++ [30] = [20, 30] := by rfl

theorem gC8 : [1, 4] ++ [5] = [1, 4, 5] := by rfl

theorem step_dup : runM (store_insert 20 30 999) sA4 = .ok ((), dupLit) := by
  simp only [store_insert, runM_bind, runM_pure, exbind_ok, uC1, cB1, reduceIte,
    reduceCtorEq]
  simp only [NodePage.insert, NodePage.touch, runM_bind, runM_pure,
    runM_modify, runM_tryCatch, exbind_ok, uC2, uC3, uC4, uC5, uC6, uC7,
    gC1, gC2, gC4, gC5, gC6, gC7, gC8, cB2, cC3, cC4, reduceIte, reduceCtorEq,
    List.length_cons, List.length_nil, List.length_singleton, Nat.reduceAdd,
    Nat.reduceLT, Nat.reduceEqDiff, eq_self_iff_true]


theorem open10_eq : BTreeStore.new (some []) 10 = .ok sB0 := by rfl

theorem exmap_ok {e a b : Type} (x : a) (f : a → b) :
    (Except.ok x : Except e a).map f = .ok (f x) := rfl

theorem uR1 : runM allocate_new_page sB0 = .ok (⟨0, false, none, [], [], [], 10, true⟩, ⟨[0, 10, 0, 0, 0, 0, 255, 255, 255, 255, 255, 255, 255, 255, 0, 0, 0, 0, 0, 255, 255, 255, 255, 255, 255, 255, 255, 255, 255, 255, 255, 255, 255, 255, 255, 255, 255, 255, 255, 255, 255, 255, 255, 255, 255, 255, 255, 255, 255, 255, 255, 255, 255, 255, 255, 255, 255, 255, 255, 255, 255, 255, 255, 255, 255, 255, 255, 255, 255, 255, 255, 255, 255, 255, 255, 255, 255, 255, 255, 255, 255, 255, 255, 255, 255, 255, 255, 255, 255, 255, 255, 255, 255, 255, 255, 255, 255, 255, 255, 255, 255, 255, 255, 255, 255, 255, 255, 255, 255, 255, 255, 255, 255, 255, 255, 255, 255, 255, 255, 255, 255, 255, 255, 255, 255, 255, 255, 255, 255, 255, 255, 255, 255, 255, 255], ⟨10, 1, none, none, true⟩⟩) := by rfl

theorem uR2 : runM (write_page ⟨0, false, none, [1, 5], [], [], 10, true⟩) ⟨[0, 10, 0, 0, 0, 0, 255, 255, 255, 255, 255, 255, 255, 255, 0, 0, 0, 0, 0, 255, 255, 255, 255, 255, 255, 255, 255, 255, 255, 255, 255, 255, 255, 255, 255, 255, 255, 255, 255, 255, 255, 255, 255, 255, 255, 255, 255, 255, 255, 255, 255, 255, 255, 255, 255, 255, 255, 255, 255, 255, 255, 255, 255, 255, 255, 255, 255, 255, 255, 255, 255, 255, 255, 255, 255, 255, 255, 255, 255, 255, 255, 255, 255, 255, 255, 255, 255, 255, 255, 255, 255, 255, 255, 255, 255, 255, 255, 255, 255, 255, 255, 255, 255, 255, 255, 255, 255, 255, 255, 255, 255, 255, 255, 255, 255, 255, 255, 255, 255, 255, 255, 255, 255, 255, 255, 255, 255, 255, 255, 255, 255, 255, 255, 255, 255], ⟨10, 1, none, none, true⟩⟩ = .ok (⟨0, false, none, [1, 5], [], [], 10, false⟩, ⟨[0, 10, 0, 0, 0, 0, 255, 255, 255, 255, 255, 255, 255, 255, 0, 0, 0, 0, 0, 255, 255, 255, 255, 0, 0, 0, 1, 0, 0, 0, 5, 255, 255, 255, 255, 255, 255, 255, 255, 255, 255, 255, 255, 255, 255, 255, 255, 255, 255, 255, 255, 255, 255, 255, 255, 255, 255, 255, 255, 255, 255, 255, 255, 255, 255, 255, 255, 255, 255, 255, 255, 255, 255, 255, 255, 255, 255, 255, 255, 255, 255, 255, 255, 255, 255, 255, 255, 255, 255, 255, 255, 255, 255, 255, 255, 255, 255, 255, 255, 255, 255, 255, 255, 255, 255, 255, 255, 255, 255, 255, 255, 255, 255, 255, 255, 255, 255, 255, 255, 255, 255, 255, 255, 255, 255, 255, 255, 255, 255, 255, 255, 255, 255, 255, 255], ⟨10, 1, none, none, true⟩⟩) := by rfl

theorem uR3 : runM allocate_new_page ⟨[0, 10, 0, 0, 0, 0, 255, 255, 255, 255, 255, 255, 255, 255, 0, 0, 0, 0, 0, 255, 255, 255, 255, 0, 0, 0, 1, 0, 0, 0, 5, 255, 255, 255, 255, 255, 255, 255, 255, 255, 255, 255, 255, 255, 255, 255, 255, 255, 255, 255, 255, 255, 255, 255, 255, 255, 255, 255, 255, 255, 255, 255, 255, 255, 255, 255, 255, 255, 255, 255, 255, 255, 255, 255, 255, 255, 255, 255, 255, 255, 255, 255, 255, 255, 255, 255, 255, 255, 255, 255, 255, 255, 255, 255, 255, 255, 255, 255, 255, 255, 255, 255, 255, 255, 255, 255, 255, 255, 255, 255, 255, 255, 255, 255, 255, 255, 255, 255, 255, 255, 255, 255, 255, 255, 255, 255, 255, 255, 255, 255, 255, 255, 255, 255, 255], ⟨10, 1, none, none, true⟩⟩ = .ok (⟨1, false, none, [], [], [], 10, true⟩, ⟨[0, 10, 0, 0, 0, 0, 255, 255, 255, 255, 255, 255, 255, 255, 0, 0, 0, 0, 0, 255, 255, 255, 255, 0, 0, 0, 1, 0, 0, 0, 5, 255, 255, 255, 255, 255, 255, 255, 255, 255, 255, 255, 255, 255, 255, 255, 255, 255, 255, 255, 255, 255, 255, 255, 255, 255, 255, 255, 255, 255, 255, 255, 255, 255, 255, 255, 255, 255, 255, 255, 255, 255, 255, 255, 255, 255, 255, 255, 255, 255, 255, 255, 255, 255, 255, 255, 255, 255, 255, 255, 255, 255, 255, 255, 255, 255, 255, 255, 255, 255, 255, 255, 255, 255, 255, 255, 255, 255, 255, 255, 255, 255, 255, 255, 255, 255, 255, 255, 255, 255, 255, 255, 255, 255, 255, 255, 255, 255, 255, 255, 255, 255, 255, 255, 255, 0, 0, 0, 1, 0, 255, 255, 255, 255, 255, 255, 255, 255, 255, 255, 255, 255, 255, 255, 255, 255, 255, 255, 255, 255, 255, 255, 255, 255, 255, 255, 255, 255, 255, 255, 255, 255, 255, 255, 255, 255, 255, 255, 255, 255, 255, 255, 255, 255, 255, 255, 255, 255, 255, 255, 255, 255, 255, 255, 255, 255, 255, 255, 255, 255, 255, 255, 255, 255, 255, 255, 255, 255, 255, 255, 255, 255, 255, 255, 255, 255, 255, 255, 255, 255, 255, 255, 255, 255, 255, 255, 255, 255, 255, 255, 255, 255, 255, 255, 255, 255, 255, 255, 255, 255, 255, 255, 255, 255, 255, 255, 255, 255, 255, 255, 255, 255, 255, 255, 255, 255], ⟨10, 2, none, none, true⟩⟩) := by rfl

theorem uR4 : runM (write_page ⟨1, false, none, [7, 10], [], [], 10, true⟩) ⟨[0, 10, 0, 0, 0, 0, 255, 255, 255, 255, 255, 255, 255, 255, 0, 0, 0, 0, 0, 255, 255, 255, 255, 0, 0, 0, 1, 0, 0, 0, 5, 255, 255, 255, 255, 255, 255, 255, 255, 255, 255, 255, 255, 255, 255, 255, 255, 255, 255, 255, 255, 255, 255, 255, 255, 255, 255, 255, 255, 255, 255, 255, 255, 255, 255, 255, 255, 255, 255, 255, 255, 255, 255, 255, 255, 255, 255, 255, 255, 255, 255, 255, 255, 255, 255, 255, 255, 255, 255, 255, 255, 255, 255, 255, 255, 255, 255, 255, 255, 255, 255, 255, 255, 255, 255, 255, 255, 255, 255, 255, 255, 255, 255, 255, 255, 255, 255, 255, 255, 255, 255, 255, 255, 255, 255, 255, 255, 255, 255, 255, 255, 255, 255, 255, 255, 0, 0, 0, 1, 0, 255, 255, 255, 255, 255, 255, 255, 255, 255, 255, 255, 255, 255, 255, 255, 255, 255, 255, 255, 255, 255, 255, 255, 255, 255, 255, 255, 255, 255, 255, 255, 255, 255, 255, 255, 255, 255, 255, 255, 255, 255, 255, 255, 255, 255, 255, 255, 255, 255, 255, 255, 255, 255, 255, 255, 255, 255, 255, 255, 255, 255, 255, 255, 255, 255, 255, 255, 255, 255, 255, 255, 255, 255, 255, 255, 255, 255, 255, 255, 255, 255, 255, 255, 255, 255, 255, 255, 255, 255, 255, 255, 255, 255, 255, 255, 255, 255, 255, 255, 255, 255, 255, 255, 255, 255, 255, 255, 255, 255, 255, 255, 255, 255, 255, 255, 255], ⟨10, 2, none, none, true⟩⟩ = .ok (⟨1, false, none, [7, 10], [], [], 10, false⟩, ⟨[0, 10, 0, 0, 0, 0, 255, 255, 255, 255, 255, 255, 255, 255, 0, 0, 0, 0, 0, 255, 255, 255, 255, 0, 0, 0, 1, 0, 0, 0, 5, 255, 255, 255, 255, 255, 255, 255, 255, 255, 255, 255, 255, 255, 255, 255, 255, 255, 255, 255, 255, 255, 255, 255, 255, 255, 255, 255, 255, 255, 255, 255, 255, 255, 255, 255, 255, 255, 255, 255, 255, 255, 255, 255, 255, 255, 255, 255, 255, 255, 255, 255, 255, 255, 255, 255, 255, 255, 255, 255, 255, 255, 255, 255, 255, 255, 255, 255, 255, 255, 255, 255, 255, 255, 255, 255, 255, 255, 255, 255, 255, 255, 255, 255, 255, 255, 255, 255, 255, 255, 255, 255, 255, 255, 255, 255, 255, 255, 255, 255, 255, 255, 255, 255, 255, 0, 0, 0, 1, 0, 255, 255, 255, 255, 0, 0, 0, 7, 0, 0, 0, 10, 255, 255, 255, 255, 255, 255, 255, 255, 255, 255, 255, 255, 255, 255, 255, 255, 255, 255, 255, 255, 255, 255, 255, 255, 255, 255, 255, 255, 255, 255, 255, 255, 255, 255, 255, 255, 255, 255, 255, 255, 255, 255, 255, 255, 255, 255, 255, 255, 255, 255, 255, 255, 255, 255, 255, 255, 255, 255, 255, 255, 255, 255, 255, 255, 255, 255, 255, 255, 255, 255, 255, 255, 255, 255, 255, 255, 255, 255, 255, 255, 255, 255, 255, 255, 255, 255, 255, 255, 255, 255, 255, 255, 255, 255, 255, 255, 255, 255, 255, 255, 255, 255, 255, 255], ⟨10, 2, none, none, true⟩⟩) := by rfl

theorem uR5 : runM (pager_delete_page 1) ⟨[0, 10, 0, 0, 0, 0, 255, 255, 255, 255, 255, 255, 255, 255, 0, 0, 0, 0, 0, 255, 255, 255, 255, 0, 0, 0, 1, 0, 0, 0, 5, 255, 255, 255, 255, 255, 255, 255, 255, 255, 255, 255, 255, 255, 255, 255, 255, 255, 255, 255, 255, 255, 255, 255, 255, 255, 255, 255, 255, 255, 255, 255, 255, 255, 255, 255, 255, 255, 255, 255, 255, 255, 255, 255, 255, 255, 255, 255, 255, 255, 255, 255, 255, 255, 255, 255, 255, 255, 255, 255, 255, 255, 255, 255, 255, 255, 255, 255, 255, 255, 255, 255, 255, 255, 255, 255, 255, 255, 255, 255, 255, 255, 255, 255, 255, 255, 255, 255, 255, 255, 255, 255, 255, 255, 255, 255, 255, 255, 255, 255, 255, 255, 255, 255, 255, 0, 0, 0, 1, 0, 255, 255, 255, 255, 0, 0, 0, 7, 0, 0, 0, 10, 255, 255, 255, 255, 255, 255, 255, 255, 255, 255, 255, 255, 255, 255, 255, 255, 255, 255, 255, 255, 255, 255, 255, 255, 255, 255, 255, 255, 255, 255, 255, 255, 255, 255, 255, 255, 255, 255, 255, 255, 255, 255, 255, 255, 255, 255, 255, 255, 255, 255, 255, 255, 255, 255, 255, 255, 255, 255, 255, 255, 255, 255, 255, 255, 255, 255, 255, 255, 255, 255, 255, 255, 255, 255, 255, 255, 255, 255, 255, 255, 255, 255, 255, 255, 255, 255, 255, 255, 255, 255, 255, 255, 255, 255, 255, 255, 255, 255, 255, 255, 255, 255, 255, 255], ⟨10, 2, none, none, true⟩⟩ = .ok ((), ⟨[0, 10, 0, 0, 0, 0, 255, 255, 255, 255, 255, 255, 255, 255, 0, 0, 0, 0, 0, 255, 255, 255, 255, 0, 0, 0, 1, 0, 0, 0, 5, 255, 255, 255, 255, 255, 255, 255, 255, 255, 255, 255, 255, 255, 255, 255, 255, 255, 255, 255, 255, 255, 255, 255, 255, 255, 255, 255, 255, 255, 255, 255, 255, 255, 255, 255, 255, 255, 255, 255, 255, 255, 255, 255, 255, 255, 255, 255, 255, 255, 255, 255, 255, 255, 255, 255, 255, 255, 255, 255, 255, 255, 255, 255, 255, 255, 255, 255, 255, 255, 255, 255, 255, 255, 255, 255, 255, 255, 255, 255, 255, 255, 255, 255, 255, 255, 255, 255, 255, 255, 255, 255, 255, 255, 255, 255, 255, 255, 255, 255, 255, 255, 255, 255, 255, 0, 0, 0, 1, 0, 255, 255, 255, 255, 0, 0, 0, 7, 0, 0, 0, 10, 255, 255, 255, 255, 255, 255, 255, 255, 255, 255, 255, 255, 255, 255, 255, 255, 255, 255, 255, 255, 255, 255, 255, 255, 255, 255, 255, 255, 255, 255, 255, 255, 255, 255, 255, 255, 255, 255, 255, 255, 255, 255, 255, 255, 255, 255, 255, 255, 255, 255, 255, 255, 255, 255, 255, 255, 255, 255, 255, 255, 255, 255, 255, 255, 255, 255, 255, 255, 255, 255, 255, 255, 255, 255, 255, 255, 255, 255, 255, 255, 255, 255, 255, 255, 255, 255, 255, 255, 255, 255, 255, 255, 255, 255, 255, 255, 255, 255, 255, 255, 255, 255, 255, 255], ⟨10, 2, some 1, none, true⟩⟩) := by rfl

theorem uR6 : runM save_metadata ⟨[0, 10, 0, 0, 0, 0, 255, 255, 255, 255, 255, 255, 255, 255, 0, 0, 0, 0, 0, 255, 255, 255, 255, 0, 0, 0, 1, 0, 0, 0, 5, 255, 255, 255, 255, 255, 255, 255, 255, 255, 255, 255, 255, 255, 255, 255, 255, 255, 255, 255, 255, 255, 255, 255, 255, 255, 255, 255, 255, 255, 255, 255, 255, 255, 255, 255, 255, 255, 255, 255, 255, 255, 255, 255, 255, 255, 255, 255, 255, 255, 255, 255, 255, 255, 255, 255, 255, 255, 255, 255, 255, 255, 255, 255, 255, 255, 255, 255, 255, 255, 255, 255, 255, 255, 255, 255, 255, 255, 255, 255, 255, 255, 255, 255, 255, 255, 255, 255, 255, 255, 255, 255, 255, 255, 255, 255, 255, 255, 255, 255, 255, 255, 255, 255, 255, 0, 0, 0, 1, 0, 255, 255, 255, 255, 0, 0, 0, 7, 0, 0, 0, 10, 255, 255, 255, 255, 255, 255, 255, 255, 255, 255, 255, 255, 255, 255, 255, 255, 255, 255, 255, 255, 255, 255, 255, 255, 255, 255, 255, 255, 255, 255, 255, 255, 255, 255, 255, 255, 255, 255, 255, 255, 255, 255, 255, 255, 255, 255, 255, 255, 255, 255, 255, 255, 255, 255, 255, 255, 255, 255, 255, 255, 255, 255, 255, 255, 255, 255, 255, 255, 255, 255, 255, 255, 255, 255, 255, 255, 255, 255, 255, 255, 255, 255, 255, 255, 255, 255, 255, 255, 255, 255, 255, 255, 255, 255, 255, 255, 255, 255, 255, 255, 255, 255, 255, 255], ⟨10, 2, some 1, none, true⟩⟩ = .ok ((), recLit) := by rfl

theorem gR1 : ([] : List Nat) ++ [1] = [1] := by rfl

theorem gR2 : [1] ++ [5] = [1, 5] := by rfl

theorem gR3 : ([] : List Nat) ++ [7] = [7] := by rfl

theorem gR4 : [7] ++ [10] = [7, 10] := by rfl

theorem recycle_eq : recycleScenario = .ok recLit := by
  simp only [recycleScenario, open10_eq, exbind_ok, runM_bind, runM_pure,
    NodePage.touch, uR1, uR2, uR3, uR4, uR5, uR6, gR1, gR2, gR3, gR4, exmap_ok]



theorem run_insert_all_cons (fuel k v : Nat) (rest : List (Nat × Nat)) (s : StoreState) :
    runM (store_insert_all fuel ((k, v) :: rest)) s =
      (runM (store_insert fuel k v) s).bind fun p => runM (store_insert_all fuel rest) p.2 := rfl

theorem run_insert_all_nil (fuel : Nat) (s : StoreState) :
    runM (store_insert_all fuel []) s = .ok ((), s) := rfl

theorem open4_eq : BTreeStore.new (some []) 4 = .ok sA0 := by rfl

theorem step_sA1 : runM (store_insert 20 10 10) sA0 = .ok ((), sA1) := by rfl

theorem step_sA2 : runM (store_insert 20 20 20) sA1 = .ok ((), sA2) := by rfl

theorem step_sA3 : runM (store_insert 20 30 30) sA2 = .ok ((), sA3) := by rfl

theorem step_sA5 : runM (store_insert 20 1 1) sA4 = .ok ((), sA5) := by rfl

theorem step_sA6 : runM (store_insert 20 2 2) sA5 = .ok ((), sA6) := by rfl

theorem step_w : runM (store_insert 20 5 5) sA4 = .ok ((), wLit) := by rfl

theorem step_d15 : runM (store_delete 20 15) sA4 = .ok (none, d15Lit) := by rfl

theorem step_d20 : runM (store_delete 20 20) sA4 = .ok (some 20, d20Lit) := by rfl

theorem step_sB1 : runM (store_insert 20 1 1) sB0 = .ok ((), sB1) := by rfl

theorem step_sB2 : runM (store_insert 20 2 2) sB1 = .ok ((), sB2) := by rfl

theorem step_sB3 : runM (store_insert 20 3 3) sB2 = .ok ((), sB3) := by rfl

theorem fourState_eq : fourState = .ok sA4 := by
  simp only [fourState, runInserts, fourSeq, open4_eq, exbind_ok, run_insert_all_cons,
    step_sA1, step_sA2, step_sA3, step_sA4, run_insert_all_nil, exmap_ok]

theorem splitState_eq : splitState = .ok sA7 := by
  simp only [splitState, runInserts, splitSeq, open4_eq, exbind_ok, run_insert_all_cons,
    step_sA1, step_sA2, step_sA3, step_sA4, step_sA5, step_sA6, step_sA7,
    run_insert_all_nil, exmap_ok]

theorem dupState_eq : dupState = .ok dupLit := by
  simp only [dupState, fourState_eq, exbind_ok, step_dup, exmap_ok]

theorem reopen1_eq : reopenSession1 = .ok sB3 := by
  simp only [reopenSession1, runInserts, open10_eq, exbind_ok, run_insert_all_cons,
    step_sB1, step_sB2, step_sB3, run_insert_all_nil, exmap_ok]

/-- C1: the insert-then-find round trip fails on the code.  After the
degree-4 insert sequence splitSeq, whose last step insert(3, 3) makes
the descent split a full child left of the tail, find(3) returns none
even though (3, 3) was the last (non-duplicate) insert of key 3; the
claim requires some 3. -/
theorem c1_find_after_insert :
    (splitState.bind fun s => (runM (store_find 20 3) s).map Prod.fst) = .ok none := by
  simp only [splitState_eq, exbind_ok]
  rfl

/-- C2: after the insert of splitSeq whose preemptive split hits a full
child that is not at the tail position, the root page (page 3, the
parent produced by the split splice) holds keys [2, 20] but four
children [4, 5, 1, 2]: children.len is keys.len + 2, not keys.len + 1,
because the splice inserts both halves without removing the old child
pointer. -/
theorem c2_split_parent_child_count :
    splitState.map (fun s => s.meta.root) = .ok (some 3)
    ∧ (splitState.bind fun s => (pageAt s 3).map fun p => (p.keys, p.children)) =
        .ok ([2, 20], [4, 5, 1, 2])
    ∧ (splitState.bind fun s =>
        (pageAt s 3).map fun p => decide (p.children.length = p.keys.length + 1)) =
        .ok false := by
  refine ⟨?_, ?_, ?_⟩ <;> simp only [splitState_eq, exbind_ok, exmap_ok] <;> rfl

/-- C3: insert(30, 30) followed by insert(30, 999) is not a silent
no-op when the second insert splits a full child whose promoted key is
30: the descent then lands in the left half and pushes a spurious
(30, 999) pair into leaf page 4, though find(30) still returns the
original value 30 through the right half. -/
theorem c3_duplicate_insert_mutates :
    (dupState.bind fun s => (pageAt s 4).map fun p => (p.keys, p.values)) =
        .ok ([20, 30], [20, 999])
    ∧ (dupState.bind fun s => (runM (store_find 20 30) s).map Prod.fst) = .ok (some 30)
    ∧ dupState ≠ fourState := by
  refine ⟨?_, ?_, ?_⟩
  · simp only [dupState_eq, exbind_ok]
    rfl
  · simp only [dupState_eq, exbind_ok]
    rfl
  · simp only [dupState_eq, fourState_eq]
    decide

/-- C4: open rejects every degree below 4 with the configuration error
message, and open with degree 4 on a fresh (existing, empty) file
succeeds with a page size of exactly 49 bytes. -/
theorem c4_degree_validation (d : Nat) (f : Option (List Nat)) (hd : d < 4) :
    BTreeStore.new f d = .error "BTreeStore must have at least a max degree of 4"
    ∧ (BTreeStore.new (some []) 4).map (fun s => page_size s.meta.max_degree) = .ok 49 := by
  constructor
  · unfold BTreeStore.new
    rw [if_pos hd]
  · rfl

/-- C4 witness: the theorem at degrees 0 and 3 (both rejected) and the
page-size computation at degree 4. -/
theorem c4_degree_validation_witness :
    BTreeStore.new none 0 = .error "BTreeStore must have at least a max degree of 4"
    ∧ BTreeStore.new (some []) 3 = .error "BTreeStore must have at least a max degree of 4"
    ∧ (BTreeStore.new (some []) 4).map (fun s => page_size s.meta.max_degree) = .ok 49 :=
  ⟨(c4_degree_validation 0 none (by decide)).1,
   (c4_degree_validation 3 (some []) (by decide)).1,
   (c4_degree_validation 0 none (by decide)).2⟩

/-- C5: open propagates the fs::metadata error when no file exists at
the path, instead of creating the file as the claim states; an
existing file shorter than 14 bytes does get the fresh header written
(second conjunct), so only the missing-file case diverges. -/
theorem c5_open_missing_file :
    BTreeStore.new none 5 = .error FS_METADATA_ERR
    ∧ (BTreeStore.new (some [7]) 5).map (fun s => (s.file, s.meta)) =
        .ok (meta_data_to_bytes
              { max_degree := 5, number_of_pages := 0, first_deleted_page := none,
                root := none, changed := false },
             { max_degree := 5, number_of_pages := 0, first_deleted_page := none,
               root := none, changed := false }) := by
  exact ⟨rfl, rfl⟩

/-- C6 counterexample: a file holding a valid 14-byte header with
stored max_degree 10 exists, yet open with degree argument 3 fails on
the degree check instead of ignoring the argument in favor of the
stored value. -/
theorem c6_counterexample :
    META_DATA_HEADER_SIZE ≤ hdr10.length
    ∧ BTreeStore.new (some hdr10) 3 =
        .error "BTreeStore must have at least a max degree of 4" := by
  exact ⟨by decide, rfl⟩

theorem new_existing (d : Nat) (bytes : List Nat) (hd : 4 ≤ d)
    (hlen : META_DATA_HEADER_SIZE ≤ bytes.length) :
    BTreeStore.new (some bytes) d =
      match u16de bytes 0, u32de bytes 2, u32de bytes 6, u32de bytes 10 with
      | some md, some np, some fd, some rt =>
          .ok { file := bytes,
                meta := { max_degree := md, number_of_pages := np,
                          first_deleted_page := read_u32_with_null fd,
                          root := read_u32_with_null rt, changed := false } }
      | _, _, _, _ => .error "model: header decode out of bounds" := by
  have h4 : ¬ d < 4 := by omega
  simp only [BTreeStore.new, if_neg h4, if_pos hlen]

/-- C6 (amended): for every degree argument of at least 4, open on a
file containing at least 14 bytes decodes and reuses the stored
metadata, so its result does not depend on the argument; and in the
concrete reopen scenario, a store created at degree 10 with keys 1, 2,
3 inserted is reopened with argument 100, the stored max_degree 10 and
number_of_pages are honored, and every inserted key is still found. -/
theorem c6_reopen_uses_stored_degree (d d2 : Nat) (bytes : List Nat)
    (hd : 4 ≤ d) (hd2 : 4 ≤ d2) (hlen : META_DATA_HEADER_SIZE ≤ bytes.length) :
    BTreeStore.new (some bytes) d = BTreeStore.new (some bytes) d2
    ∧ reopenSession2.map (fun s => (s.meta.max_degree, s.meta.number_of_pages)) = .ok (10, 1)
    ∧ reopenSession1.map (fun s => s.meta.number_of_pages) = .ok 1
    ∧ (reopenSession2.bind fun s => (runM (store_find 20 1) s).map Prod.fst) = .ok (some 1)
    ∧ (reopenSession2.bind fun s => (runM (store_find 20 2) s).map Prod.fst) = .ok (some 2)
    ∧ (reopenSession2.bind fun s => (runM (store_find 20 3) s).map Prod.fst) = .ok (some 3) := by
  refine ⟨?_, ?_, ?_, ?_, ?_, ?_⟩
  · rw [new_existing d bytes hd hlen, new_existing d2 bytes hd2 hlen]
  · simp only [reopenSession2, reopen1_eq, exbind_ok]
    rfl
  · simp only [reopen1_eq]
    rfl
  · simp only [reopenSession2, reopen1_eq, exbind_ok]
    rfl
  · simp only [reopenSession2, reopen1_eq, exbind_ok]
    rfl
  · simp only [reopenSession2, reopen1_eq, exbind_ok]
    rfl

/-- C6 witness: the amended theorem applied with degree arguments 5 and
100 on the valid header hdr10. -/
theorem c6_reopen_witness :
    BTreeStore.new (some hdr10) 5 = BTreeStore.new (some hdr10) 100
    ∧ reopenSession2.map (fun s => (s.meta.max_degree, s.meta.number_of_pages)) = .ok (10, 1)
    ∧ reopenSession1.map (fun s => s.meta.number_of_pages) = .ok 1
    ∧ (reopenSession2.bind fun s => (runM (store_find 20 1) s).map Prod.fst) = .ok (some 1)
    ∧ (reopenSession2.bind fun s => (runM (store_find 20 2) s).map Prod.fst) = .ok (some 2)
    ∧ (reopenSession2.bind fun s => (runM (store_find 20 3) s).map Prod.fst) = .ok (some 3) :=
  c6_reopen_uses_stored_degree 5 100 hdr10 (by decide) (by decide) (by decide)

/-- C10: delete removes the key only from its leaf.  In the degree-4
tree built by fourSeq, delete(20) succeeds returning some 20, yet 20
survives as the separator key of the (internal) root, and find(20)
afterwards returns none because the descent on an equal separator goes
to the right subtree. -/
theorem c10_separator_stays_after_delete :
    (fourState.bind fun s => (runM (store_delete 20 20) s).map Prod.fst) = .ok (some 20)
    ∧ (fourState.bind fun s => (runM (store_delete 20 20) s).bind fun r =>
        (r.2.meta.root.elim (.error "no root") (pageAt r.2)).map fun p =>
          (p.keys, p.children)) = .ok ([20], [1, 2])
    ∧ (fourState.bind fun s => (runM (store_delete 20 20) s).bind fun r =>
        (runM (store_find 20 20) r.2).map Prod.fst) = .ok none := by
  refine ⟨?_, ?_, ?_⟩ <;> simp only [fourState_eq, exbind_ok, step_d20] <;> rfl

/-- C7 counterexample: allocating from the non-empty free list of
recycleScenario returns the recycled page (id 1, contents cleared,
live, detached from the free list) but with its dirty flag false: the
write-back inside allocate_new_page cleared it, and the recycle branch
never re-marks the page dirty, unlike the fresh branch. -/
theorem c7_counterexample :
    (recycleScenario.bind fun s => (runM allocate_new_page s).map fun p =>
      (p.1.id, p.1.changed, p.1.keys, p.1.children, p.1.values, p.1.deleted,
       p.1.next_deleted_page)) = .ok (1, false, [], [], [], false, none) := by
  simp only [recycle_eq, exbind_ok]
  rfl

/-- C8: NodePager::delete_page updates only the in-memory metadata head
(to some 1) and never writes the deletion marker: re-reading slot 1
afterwards still yields a live page (deleted = false) with its old
keys [7, 10] and no free-list link, where the claim requires the
persisted marker to be observed. -/
theorem c8_delete_page_marker_not_persisted :
    recycleScenario.map (fun s => s.meta.first_deleted_page) = .ok (some 1)
    ∧ (recycleScenario.bind fun s => (pageAt s 1).map fun p =>
        (p.deleted, p.keys, p.next_deleted_page)) = .ok (false, [7, 10], none) := by
  refine ⟨?_, ?_⟩ <;> simp only [recycle_eq, exbind_ok, exmap_ok] <;> rfl

/-- C9 counterexample: in the degree-4 tree built by fourSeq the key 15
is absent (find returns none), and delete(15) indeed returns none, yet
it rewrites page content: leaf page 1 changes from [10] to [10, 20]
because the descent repairs the under-minimal leaf by borrowing from
its right sibling before deleting. -/
theorem c9_counterexample :
    (fourState.bind fun s => (runM (store_find 20 15) s).map Prod.fst) = .ok none
    ∧ (fourState.bind fun s => (pageAt s 1).map fun p => p.keys) = .ok [10]
    ∧ (fourState.bind fun s => (runM (store_delete 20 15) s).map Prod.fst) = .ok none
    ∧ (fourState.bind fun s => (runM (store_delete 20 15) s).bind fun r =>
        (pageAt r.2 1).map fun p => p.keys) = .ok [10, 20] := by
  refine ⟨?_, ?_, ?_, ?_⟩ <;> simp only [fourState_eq, exbind_ok, step_d15] <;> rfl

theorem obind_some {a b : Type} (x : a) (f : a → Option b) :
    (some x : Option a) >>= f = f x := rfl

theorem u32be_length (n : Nat) : (u32be n).length = 4 := rfl

theorem setBytes_some (data : List Nat) (off : Nat) (bytes : List Nat)
    (h : off + bytes.length ≤ data.length) :
    setBytes data off bytes = some (data.take off ++ bytes ++ data.drop (off + bytes.length))
    ∧ (data.take off ++ bytes ++ data.drop (off + bytes.length)).length = data.length := by
  refine ⟨by unfold setBytes; rw [if_pos h], ?_⟩
  simp only [List.length_append, List.length_take, List.length_drop]
  omega

theorem setBytes_ex (data : List Nat) (off : Nat) (bytes : List Nat)
    (h : off + bytes.length ≤ data.length) :
    ∃ d2, setBytes data off bytes = some d2 ∧ d2.length = data.length := by
  obtain ⟨e, l⟩ := setBytes_some data off bytes h
  exact ⟨_, e, l⟩

theorem encodePage_empty (dm : Nat) (q : NodePage) (hdm : 4 ≤ dm)
    (hk : q.keys = []) (hc : q.children = []) (hv : q.values = []) :
    ∃ data, encodePage dm q = some data := by
  have hps : 13 ≤ (List.replicate (page_size dm) 255).length := by
    simp only [List.length_replicate]
    unfold page_size PAGE_HEADER_SIZE
    omega
  obtain ⟨d1, e1, l1⟩ := setBytes_ex (List.replicate (page_size dm) 255) 0 (u32be q.id)
    (by simp only [u32be_length]; omega)
  obtain ⟨d2, e2, l2⟩ := setBytes_ex d1 4 [if q.deleted then 1 else 0]
    (by simp only [List.length_cons, List.length_nil, l1]; omega)
  obtain ⟨d3, e3, l3⟩ := setBytes_ex d2 5 (get_u32_be_bytes_from_option q.next_deleted_page)
    (by simp only [get_u32_be_bytes_from_option, u32be_length, l2, l1]; omega)
  refine ⟨d3, ?_⟩
  simp only [encodePage, e1, obind_some, e2, e3, hk, hc, hv]
  rfl

theorem fromBytes_ok_facts {bytes : List Nat} {d : Nat} {p : NodePage}
    (h : NodePage.fromBytes bytes d = .ok p) : ¬ p.id = U32MAX ∧ p.changed = false := by
  unfold NodePage.fromBytes at h
  split at h
  · exact absurd h (by simp)
  next page_id hu =>
    split at h
    · exact absurd h (by simp)
    next hid =>
      split at h
      · exact absurd h (by simp)
      next dbyte hb =>
        split at h
        · exact absurd h (by simp)
        next nd hnd =>
          split at h
          · exact absurd h (by simp)
          next keys hkeys =>
            split at h
            · exact absurd h (by simp)
            next children hch =>
              split at h
              · exact absurd h (by simp)
              next values hvals =>
                cases h
                exact ⟨hid, rfl⟩

theorem read_page_ok_facts {i : Nat} {s : StoreState} {p : NodePage} {s2 : StoreState}
    (h : runM (read_page i) s = .ok (p, s2)) :
    (¬ p.id = U32MAX ∧ p.changed = false) ∧ s2 = s := by
  unfold read_page at h
  simp only [runM_bind, runM_get, exbind_ok] at h
  split at h
  · exact absurd h (by simp [runM_throw])
  next data hdata =>
    split at h
    · exact absurd h (by simp [runM_throw])
    next q hq =>
      simp only [runM_pure, Except.ok.injEq, Prod.mk.injEq] at h
      obtain ⟨h1, h2⟩ := h
      subst h1
      subst h2
      exact ⟨fromBytes_ok_facts hq, rfl⟩

theorem write_page_ok (q : NodePage) (s : StoreState) (data : List Nat)
    (hch : q.changed = true) (hid : ¬ q.id = U32MAX) (hdel : q.deleted = false)
    (henc : encodePage s.meta.max_degree q = some data) :
    runM (write_page q) s =
      .ok ({ q with changed := false },
           { s with file := (writeAt s.file (META_DATA_HEADER_SIZE + page_size s.meta.max_degree * q.id) data) }) := by
  unfold write_page
  simp only [hch, hdel, hid, if_neg, reduceCtorEq, if_false, Bool.true_eq_false, ite_false]
  simp only [runM_bind, runM_get, exbind_ok]
  rw [henc]
  simp only [runM_bind, runM_set, exbind_ok, runM_pure]

theorem c7_allocate_recycle (s : StoreState) (d : Nat) (p : NodePage)
    (hdeg : 4 ≤ s.meta.max_degree)
    (hfd : s.meta.first_deleted_page = some d)
    (hread : runM (read_page d) s = .ok (p, s)) :
    ∃ s2, runM allocate_new_page s =
        .ok ({ id := p.id, deleted := false, next_deleted_page := none, keys := [],
               children := [], values := [], max_degree := p.max_degree,
               changed := false }, s2)
        ∧ s2.meta.first_deleted_page = p.next_deleted_page
        ∧ s2.meta.max_degree = s.meta.max_degree := by
  obtain ⟨⟨hid, hchg⟩, _⟩ := read_page_ok_facts hread
  obtain ⟨data, henc⟩ := encodePage_empty s.meta.max_degree p.reallocate hdeg rfl rfl rfl
  have henc1 : encodePage
      ({ s with meta := s.meta.set_first_deleted_page p.next_deleted_page } : StoreState).meta.max_degree
      p.reallocate = some data := henc
  have hw := write_page_ok p.reallocate
      { s with meta := s.meta.set_first_deleted_page p.next_deleted_page } data rfl hid rfl henc1
  have hrun : runM allocate_new_page s =
      .ok ({ id := p.id, deleted := false, next_deleted_page := none, keys := [],
             children := [], values := [], max_degree := p.max_degree,
             changed := false },
           ({ file := (writeAt s.file (META_DATA_HEADER_SIZE + page_size s.meta.max_degree * p.id) data),
              meta := s.meta.set_first_deleted_page p.next_deleted_page } : StoreState)) := by
    simp only [allocate_new_page, runM_bind, runM_get, exbind_ok, hfd]
    rw [hread]
    simp only [exbind_ok, runM_bind, runM_modify]
    rw [hw]
    simp only [exbind_ok, runM_pure, NodePage.reallocate, StoreMetaData.set_first_deleted_page]
  exact ⟨_, hrun, by simp [StoreMetaData.set_first_deleted_page],
         by simp [StoreMetaData.set_first_deleted_page]⟩

theorem c7_allocate_fresh (t : StoreState)
    (htdeg : 4 ≤ t.meta.max_degree)
    (htfd : t.meta.first_deleted_page = none)
    (htn : t.meta.number_of_pages + 1 < 4294967296) :
    ∃ t2, runM allocate_new_page t =
        .ok ({ id := t.meta.number_of_pages, deleted := false, next_deleted_page := none,
               keys := [], children := [], values := [],
               max_degree := t.meta.max_degree, changed := true }, t2)
        ∧ t2.meta.number_of_pages = t.meta.number_of_pages + 1
        ∧ t2.meta.first_deleted_page = none := by
  have hmod : (t.meta.number_of_pages + 1) % 4294967296 = t.meta.number_of_pages + 1 :=
    Nat.mod_eq_of_lt htn
  have hnid : ¬ (t.meta.number_of_pages = U32MAX) := by
    unfold U32MAX
    omega
  obtain ⟨data, henc⟩ := encodePage_empty t.meta.max_degree
    { id := t.meta.number_of_pages, deleted := false, next_deleted_page := none,
      keys := [], children := [], values := [],
      max_degree := t.meta.max_degree, changed := true } htdeg rfl rfl rfl
  have henc1 : encodePage
      ({ t with meta := t.meta.inc_number_of_pages } : StoreState).meta.max_degree
      { id := t.meta.number_of_pages, deleted := false, next_deleted_page := none,
        keys := [], children := [], values := [],
        max_degree := t.meta.max_degree, changed := true } = some data := by
    simpa [StoreMetaData.inc_number_of_pages] using henc
  have hw := write_page_ok
      { id := t.meta.number_of_pages, deleted := false, next_deleted_page := none,
        keys := [], children := [], values := [],
        max_degree := t.meta.max_degree, changed := true }
      { t with meta := t.meta.inc_number_of_pages } data rfl hnid rfl henc1
  have hnew : NodePage.new (StoreMetaData.inc_number_of_pages t.meta).max_degree
      ((StoreMetaData.inc_number_of_pages t.meta).number_of_pages - 1) =
      .ok { id := t.meta.number_of_pages, deleted := false, next_deleted_page := none,
            keys := [], children := [], values := [],
            max_degree := t.meta.max_degree, changed := true } := by
    simp only [StoreMetaData.inc_number_of_pages, hmod, Nat.add_sub_cancel, NodePage.new,
      if_neg hnid]
  have hrun : runM allocate_new_page t =
      .ok ({ id := t.meta.number_of_pages, deleted := false, next_deleted_page := none,
             keys := [], children := [], values := [],
             max_degree := t.meta.max_degree, changed := true },
           ({ file := (writeAt t.file (META_DATA_HEADER_SIZE + page_size t.meta.max_degree * t.meta.number_of_pages) data),
              meta := t.meta.inc_number_of_pages } : StoreState)) := by
    simp only [allocate_new_page, runM_bind, runM_get, exbind_ok, htfd, runM_modify]
    rw [hnew]
    simp only [runM_bind, exbind_ok]
    rw [hw]
    simp only [exbind_ok, runM_pure, StoreMetaData.inc_number_of_pages]
  exact ⟨_, hrun, by simp [StoreMetaData.inc_number_of_pages, hmod],
         by simp [StoreMetaData.inc_number_of_pages, htfd]⟩

/-- C7 (amended): with a non-empty free list, allocate_new_page returns a
page carrying the recycled id with empty keys, children and values,
deleted false and next_deleted_page none, after moving the stored
next_deleted_page of the recycled page into the metadata head; the
returned page is clean (changed = false) because the allocator
write-back clears the flag and the recycle branch never re-marks it.
Only the fresh branch (empty free list) returns a dirty page, whose id
is the previous number_of_pages, with the counter incremented. -/
theorem c7_allocate_spec (s t : StoreState) (d : Nat) (p : NodePage)
    (hdeg : 4 ≤ s.meta.max_degree)
    (hfd : s.meta.first_deleted_page = some d)
    (hread : runM (read_page d) s = .ok (p, s))
    (htdeg : 4 ≤ t.meta.max_degree)
    (htfd : t.meta.first_deleted_page = none)
    (htn : t.meta.number_of_pages + 1 < 4294967296) :
    (∃ s2, runM allocate_new_page s =
        .ok ({ id := p.id, deleted := false, next_deleted_page := none, keys := [],
               children := [], values := [], max_degree := p.max_degree,
               changed := false }, s2)
        ∧ s2.meta.first_deleted_page = p.next_deleted_page
        ∧ s2.meta.max_degree = s.meta.max_degree)
    ∧ (∃ t2, runM allocate_new_page t =
        .ok ({ id := t.meta.number_of_pages, deleted := false, next_deleted_page := none,
               keys := [], children := [], values := [],
               max_degree := t.meta.max_degree, changed := true }, t2)
        ∧ t2.meta.number_of_pages = t.meta.number_of_pages + 1
        ∧ t2.meta.first_deleted_page = none) :=
  ⟨c7_allocate_recycle s d p hdeg hfd hread, c7_allocate_fresh t htdeg htfd htn⟩

/-- C7 witness: the amended theorem applied to the recycle scenario
state recLit (free-list head 1, stored page 1 holding keys 7 and 10)
and to the empty degree-10 store sB0. -/
theorem c7_allocate_spec_witness :
    (∃ s2, runM allocate_new_page recLit =
        .ok (⟨1, false, none, [], [], [], 10, false⟩, s2)
        ∧ s2.meta.first_deleted_page = none
        ∧ s2.meta.max_degree = 10)
    ∧ (∃ t2, runM allocate_new_page sB0 =
        .ok (⟨0, false, none, [], [], [], 10, true⟩, t2)
        ∧ t2.meta.number_of_pages = 0 + 1
        ∧ t2.meta.first_deleted_page = none) :=
  c7_allocate_spec recLit sB0 1 ⟨1, false, none, [7, 10], [], [], 10, false⟩
    (by decide) (by rfl) (by rfl) (by decide) (by rfl) (by decide)

theorem meta_bytes_length (m : StoreMetaData) :
    (meta_data_to_bytes m).length = META_DATA_HEADER_SIZE := rfl

theorem run_read_page_ok (i : Nat) (s : StoreState) (p : NodePage)
    (h : pageAt s i = .ok p) : runM (read_page i) s = .ok (p, s) := by
  unfold pageAt at h
  unfold read_page
  simp only [runM_bind, runM_get, exbind_ok]
  cases hr : readAt s.file (META_DATA_HEADER_SIZE + page_size s.meta.max_degree * i)
      (page_size s.meta.max_degree) with
  | none => simp only [hr, reduceCtorEq] at h
  | some data =>
      simp only [hr] at h ⊢
      cases hf : NodePage.fromBytes data s.meta.max_degree with
      | error e => simp only [hf, reduceCtorEq] at h
      | ok n =>
          simp only [hf] at h ⊢
          injection h with h2
          subst h2
          exact runM_pure _ _

theorem write_skip (q : NodePage) (s : StoreState) (h : q.changed = false) :
    runM (write_page q) s = .ok (q, s) := by
  unfold write_page
  simp only [h, eq_self_iff_true, reduceIte, runM_pure]

theorem run_save_metadata (s : StoreState) :
    runM save_metadata s = .ok ((), metaFlushed s) := by
  unfold save_metadata metaFlushed
  simp only [runM_bind, runM_get, exbind_ok]
  cases hc : s.meta.changed with
  | true => simp only [hc, eq_self_iff_true, reduceIte]; rfl
  | false => simp only [hc, Bool.false_eq_true, reduceIte]; rfl

theorem keys_findIdx_none {l : List Nat} {key : Nat} (h : ¬ key ∈ l) :
    l.findIdx? (fun k => decide (k = key)) = none := by
  rw [List.findIdx?_eq_none_iff]
  intro x hx
  simp only [decide_eq_false_iff_not]
  intro he
  exact h (he ▸ hx)

theorem wfNode_destruct {fuel : Nat} {s : StoreState} {id : Nat} {isRoot : Bool}
    (h : wfNode (fuel + 1) s id isRoot = true) :
    ∃ p, pageAt s id = .ok p ∧ p.changed = false ∧ p.deleted = false
      ∧ (isRoot = false → p.min_keys ≤ p.keys.length)
      ∧ (p.is_leaf = false → (1 ≤ p.keys.length ∧ p.children.length = p.keys.length + 1
          ∧ p.children.all (fun c => wfNode fuel s c false) = true)) := by
  unfold wfNode at h
  cases hp : pageAt s id with
  | error e => simp only [hp, Bool.false_eq_true] at h
  | ok p =>
      simp only [hp, Bool.and_eq_true, Bool.not_eq_true',
        Bool.or_eq_true, decide_eq_true_eq] at h
      obtain ⟨⟨⟨⟨hch, hdel⟩, hchain⟩, hmin⟩, hrest⟩ := h
      refine ⟨p, rfl, hch, hdel, ?_, ?_⟩
      · intro hr
        cases hmin with
        | inl h1 => rw [hr] at h1; exact absurd h1 (by simp)
        | inr h2 => exact h2
      · intro hl
        simp only [hl, Bool.false_eq_true, reduceIte, Bool.and_eq_true,
          decide_eq_true_eq] at hrest
        exact ⟨hrest.1.1, hrest.1.2, hrest.2⟩

theorem wfNode_page {fuel : Nat} {s : StoreState} {id : Nat} {r : Bool}
    (h : wfNode fuel s id r = true) :
    ∃ p, pageAt s id = .ok p ∧ p.changed = false
      ∧ (r = false → p.min_keys ≤ p.keys.length)
      ∧ (p.is_leaf = false → 1 ≤ p.keys.length) := by
  cases fuel with
  | zero => simp [wfNode] at h
  | succ m =>
      obtain ⟨p, h1, h2, _, h4, h5⟩ := wfNode_destruct h
      exact ⟨p, h1, h2, h4, fun hl => (h5 hl).1⟩

theorem wfChildren_mem {fuel : Nat} {s : StoreState} {ids : List Nat}
    (h : ids.all (fun c => wfNode fuel s c false) = true) :
    ∀ c ∈ ids, wfNode fuel s c false = true := by
  intro c hc
  rw [List.all_eq_true] at h
  exact h c hc

theorem subtreeAbsent_destruct {fuel : Nat} {s : StoreState} {id key : Nat}
    (h : subtreeAbsent (fuel + 1) s id key = true) :
    ∃ p, pageAt s id = .ok p
      ∧ (p.is_leaf = true → ¬ key ∈ p.keys)
      ∧ (p.is_leaf = false →
          p.children.all (fun c => subtreeAbsent fuel s c key) = true) := by
  unfold subtreeAbsent at h
  cases hp : pageAt s id with
  | error e => simp only [hp, Bool.false_eq_true] at h
  | ok p =>
      simp only [hp] at h
      refine ⟨p, rfl, ?_, ?_⟩
      · intro hl
        simp only [hl, eq_self_iff_true, reduceIte, decide_eq_true_eq] at h
        exact h
      · intro hl
        simp only [hl, Bool.false_eq_true, reduceIte] at h
        exact h

theorem childrenAbsent_mem {fuel : Nat} {s : StoreState} {ids : List Nat} {key : Nat}
    (h : ids.all (fun c => subtreeAbsent fuel s c key) = true) :
    ∀ c ∈ ids, subtreeAbsent fuel s c key = true := by
  intro c hc
  rw [List.all_eq_true] at h
  exact h c hc

theorem deleteNode_absent : ∀ (fuel : Nat) (s : StoreState) (id key : Nat)
    (p : NodePage) (isRoot : Bool),
    wfNode fuel s id isRoot = true →
    subtreeAbsent fuel s id key = true →
    pageAt s id = .ok p →
    runM (NodePage.delete fuel p key) s = .ok ((none, p), s) := by
  intro fuel
  induction fuel with
  | zero =>
      intro s id key p r hwf habs hp
      simp [wfNode] at hwf
  | succ n ih =>
      intro s id key p r hwf habs hp
      obtain ⟨p1, hp1, hch, hdel, hmin, hint⟩ := wfNode_destruct hwf
      rw [hp] at hp1
      injection hp1 with e1
      subst e1
      obtain ⟨p2, hp2, habsleaf, habsint⟩ := subtreeAbsent_destruct habs
      rw [hp] at hp2
      injection hp2 with e2
      subst e2
      cases hl : p.is_leaf with
      | true =>
          have hfind := keys_findIdx_none (habsleaf hl)
          simp only [NodePage.delete, hl, eq_self_iff_true, reduceIte, hfind, runM_pure]
      | false =>
          obtain ⟨hk1, hcc, hwfc⟩ := hint hl
          have hai := habsint hl
          have hni : p.node_index key < p.children.length := by
            unfold NodePage.node_index
            cases hf : p.keys.findIdx? (fun k => decide (key < k)) with
            | none =>
                show p.children.length - 1 < p.children.length
                omega
            | some i =>
                show i < p.children.length
                rw [List.findIdx?_eq_some_iff_findIdx_eq] at hf
                omega
          obtain ⟨cid, hget⟩ : ∃ cid, p.children.get? (p.node_index key) = some cid :=
            ⟨_, List.get?_eq_get hni⟩
          have hmem : cid ∈ p.children := List.get?_mem hget
          have hwfc2 : wfNode n s cid false = true := wfChildren_mem hwfc cid hmem
          have habs2 : subtreeAbsent n s cid key = true := childrenAbsent_mem hai cid hmem
          obtain ⟨c, hpc, hcch, hcmin, _⟩ := wfNode_page hwfc2
          have hminfalse : c.is_less_than_minimal = false := by
            unfold NodePage.is_less_than_minimal
            simp only [decide_eq_false_iff_not, not_lt]
            exact hcmin rfl
          have hReadC : runM (read_page cid) s = .ok (c, s) := run_read_page_ok cid s c hpc
          have hrec : runM (NodePage.delete n c key) s = .ok ((none, c), s) :=
            ih s cid key c false hwfc2 habs2 hpc
          have hwskip : runM (write_page c) s = .ok (c, s) := write_skip c s hcch
          simp only [NodePage.delete, hl, Bool.false_eq_true, reduceIte, hget,
            runM_bind, hReadC, exbind_ok, hminfalse, runM_pure, hrec, hwskip]

/-- C9 (amended): for a key absent from every leaf of a tree all of
whose nodes satisfy the structural invariants (clean, live, sorted
keys, non-root nodes at or above min_keys, internal nodes with one
more child than keys), delete returns None and rewrites at most the
14-byte metadata header: the page area of the file, and its length,
are unchanged.  Trees with a node below min_keys are excluded: there
the pre-descent repair rewrites pages although the key is absent (see
c9_counterexample). -/
theorem c9_delete_absent_frame (fuel key rid : Nat) (s : StoreState)
    (hroot : s.meta.root = some rid)
    (hwf : wfNode fuel s rid true = true)
    (habs : subtreeAbsent fuel s rid key = true) :
    runM (store_delete fuel key) s = .ok (none, metaFlushed s)
      ∧ List.drop META_DATA_HEADER_SIZE (metaFlushed s).file
          = List.drop META_DATA_HEADER_SIZE s.file
      ∧ (metaFlushed s).file.length = s.file.length := by
  obtain ⟨p, hp, hch, _, hkeys⟩ := wfNode_page hwf
  have hlen14 : META_DATA_HEADER_SIZE ≤ s.file.length := by
    unfold pageAt at hp
    cases hr : readAt s.file (META_DATA_HEADER_SIZE + page_size s.meta.max_degree * rid)
        (page_size s.meta.max_degree) with
    | none => rw [hr] at hp; exact absurd hp (by simp)
    | some data =>
        unfold readAt at hr
        by_cases hle : META_DATA_HEADER_SIZE + page_size s.meta.max_degree * rid
            + page_size s.meta.max_degree ≤ s.file.length
        · omega
        · rw [if_neg hle] at hr; exact absurd hr (by simp)
  have hsr : runM store_root s = .ok (p, s) := by
    unfold store_root
    simp only [runM_bind, runM_get, exbind_ok, hroot]
    exact run_read_page_ok rid s p hp
  have hdel : runM (NodePage.delete fuel p key) s = .ok ((none, p), s) :=
    deleteNode_absent fuel s rid key p true hwf habs hp
  have hcond : (p.keys.isEmpty && !p.is_leaf) = false := by
    cases hl : p.is_leaf with
    | true => simp [hl]
    | false =>
        have h1 := hkeys hl
        cases hk : p.keys with
        | nil => rw [hk] at h1; simp at h1
        | cons a t => simp [hk]
  have hwskip : runM (write_page p) s = .ok (p, s) := write_skip p s hch
  have hsave : runM save_metadata s = .ok ((), metaFlushed s) := run_save_metadata s
  refine ⟨?_, ?_, ?_⟩
  · unfold store_delete
    simp only [runM_bind, hsr, exbind_ok, hdel, hcond, Bool.false_eq_true, reduceIte,
      runM_pure, hwskip, hsave]
  · unfold metaFlushed
    cases hc : s.meta.changed with
    | false => simp only [hc, Bool.false_eq_true, reduceIte]
    | true =>
        simp only [hc, eq_self_iff_true, reduceIte]
        unfold writeAt
        simp only [List.take_zero, Nat.zero_sub, List.replicate_zero, List.nil_append,
          Nat.zero_add, meta_bytes_length]
        exact List.drop_left' (meta_bytes_length s.meta)
  · unfold metaFlushed
    cases hc : s.meta.changed with
    | false => simp only [hc, Bool.false_eq_true, reduceIte]
    | true =>
        simp only [hc, eq_self_iff_true, reduceIte]
        unfold writeAt
        simp only [List.take_zero, Nat.zero_sub, List.replicate_zero, List.nil_append,
          Nat.zero_add, List.length_append, List.length_drop, meta_bytes_length]
        omega

/-- C9 witness: the amended theorem applied to the min-keys tree wLit
(root page 3 with separator 20 over the leaves 5,10 and 20,30,50 at
degree 4) and the absent key 99. -/
theorem c9_delete_absent_frame_witness :
    runM (store_delete 20 99) wLit = .ok (none, metaFlushed wLit)
      ∧ List.drop META_DATA_HEADER_SIZE (metaFlushed wLit).file
          = List.drop META_DATA_HEADER_SIZE wLit.file
      ∧ (metaFlushed wLit).file.length = wLit.file.length :=
  c9_delete_absent_frame 20 99 3 wLit (by rfl) (by decide) (by decide)

end PageBplusTree
